import Mathlib

/-!
Verification development for the Dawn shader-module subsystem
(`src/dawn_native/ShaderModule.cpp` and `src/utils/TextureUtils.h`).

The C++ code is shallowly embedded: enumerations become inductive types,
the reflection backends and validation routines become pure Lean functions
over an abstract view of the SPIR-V module (the facts both reflection
libraries report about the same IR), and fallible code returns
`Except String`.  External collaborators (the spirv-cross / spvc reflection
libraries and the format-capability table) are modelled as inputs: the IR
view carries the ground-truth facts both libraries extract from the same
binary module, and the capability table is a `TextureFormat → Bool`
parameter.
-/

namespace Dawn

/-- kMaxBindGroups from Dawn's Constants.h (used as `kMaxBindGroupsTyped`
in ShaderModule.cpp).  Modelled from the spec: "bind-group indices are
bounded by a fixed maximum group count". -/
def kMaxBindGroups : Nat := 4

/-- kMaxVertexAttributes from Dawn's Constants.h. -/
def kMaxVertexAttributes : Nat := 16

/-- kMaxColorAttachments from Dawn's Constants.h. -/
def kMaxColorAttachments : Nat := 4

/-- SingleShaderStage: execution stage of the single entry point. -/
inductive SingleShaderStage
  | Vertex
  | Fragment
  | Compute
deriving DecidableEq, Repr

/-- wgpu::ShaderStage bit for a stage (used by the visibility check). -/
def StageBit : SingleShaderStage → Nat
  | .Vertex => 1
  | .Fragment => 2
  | .Compute => 4

/-- wgpu::BindingType. -/
inductive BindingType
  | UniformBuffer
  | StorageBuffer
  | ReadonlyStorageBuffer
  | Sampler
  | ComparisonSampler
  | SampledTexture
  | ReadonlyStorageTexture
  | WriteonlyStorageTexture
  | StorageTexture
deriving DecidableEq, Repr, Fintype

/-- Format::Type: the component base type of a texture format. -/
inductive FormatType
  | Float
  | Sint
  | Uint
  | Other
deriving DecidableEq, Repr

/-- wgpu::TextureViewDimension. -/
inductive TextureViewDimension
  | Undefined
  | e1D
  | e2D
  | e2DArray
  | Cube
  | CubeArray
  | e3D
deriving DecidableEq, Repr

/-- spv::Dim values reachable for sampled / storage images in this code. -/
inductive SpvDim
  | Dim1D
  | Dim2D
  | Dim3D
  | DimCube
deriving DecidableEq, Repr

/-- spirv_cross::SPIRType::BaseType, collapsed to the cases the code
distinguishes (Float / Int / UInt and the default branch). -/
inductive SpirvBaseType
  | Float
  | Int
  | UInt
  | Other
deriving DecidableEq, Repr

/-- wgpu::TextureFormat: `Undefined` plus the closed set of 63 formats
enumerated in utils/TextureUtils.h (`kAllTextureFormats`). -/
inductive TextureFormat
  | Undefined
  | R8Unorm
  | R8Snorm
  | R8Uint
  | R8Sint
  | R16Uint
  | R16Sint
  | R16Float
  | RG8Unorm
  | RG8Snorm
  | RG8Uint
  | RG8Sint
  | R32Float
  | R32Uint
  | R32Sint
  | RG16Uint
  | RG16Sint
  | RG16Float
  | RGBA8Unorm
  | RGBA8UnormSrgb
  | RGBA8Snorm
  | RGBA8Uint
  | RGBA8Sint
  | BGRA8Unorm
  | BGRA8UnormSrgb
  | RGB10A2Unorm
  | RG11B10Ufloat
  | RGB9E5Ufloat
  | RG32Float
  | RG32Uint
  | RG32Sint
  | RGBA16Uint
  | RGBA16Sint
  | RGBA16Float
  | RGBA32Float
  | RGBA32Uint
  | RGBA32Sint
  | Depth32Float
  | Depth24Plus
  | Depth24PlusStencil8
  | BC1RGBAUnorm
  | BC1RGBAUnormSrgb
  | BC2RGBAUnorm
  | BC2RGBAUnormSrgb
  | BC3RGBAUnorm
  | BC3RGBAUnormSrgb
  | BC4RUnorm
  | BC4RSnorm
  | BC5RGUnorm
  | BC5RGSnorm
  | BC6HRGBUfloat
  | BC6HRGBFloat
  | BC7RGBAUnorm
  | BC7RGBAUnormSrgb
  | ETC2RGB8Unorm
  | ETC2RGB8UnormSrgb
  | ETC2RGB8A1Unorm
  | ETC2RGB8A1UnormSrgb
  | ETC2RGBA8Unorm
  | ETC2RGBA8UnormSrgb
  | EACR11Unorm
  | EACR11Snorm
  | EACRG11Unorm
  | EACRG11Snorm
deriving DecidableEq, Repr

/-- spv::ImageFormat values that appear in the conversion table of
`ToWGPUTextureFormat`, plus `Unknown` standing for every value the table's
default branch maps to `Undefined`. -/
inductive SpvImageFormat
  | Unknown
  | R8
  | R8Snorm
  | R8ui
  | R8i
  | R16ui
  | R16i
  | R16f
  | Rg8
  | Rg8Snorm
  | Rg8ui
  | Rg8i
  | R32f
  | R32ui
  | R32i
  | Rg16ui
  | Rg16i
  | Rg16f
  | Rgba8
  | Rgba8Snorm
  | Rgba8ui
  | Rgba8i
  | Rgb10A2
  | R11fG11fB10f
  | Rg32f
  | Rg32ui
  | Rg32i
  | Rgba16ui
  | Rgba16i
  | Rgba16f
  | Rgba32f
  | Rgba32ui
  | Rgba32i
deriving DecidableEq, Repr

/-- SpirvCrossBaseTypeToFormatType from ShaderModule.cpp (the default
branch is UNREACHABLE and falls through to `Other`). -/
def SpirvCrossBaseTypeToFormatType : SpirvBaseType → FormatType
  | .Float => .Float
  | .Int => .Sint
  | .UInt => .Uint
  | .Other => .Other

/-- SpirvDimToTextureViewDimension from ShaderModule.cpp. -/
def SpirvDimToTextureViewDimension (dim : SpvDim) (arrayed : Bool) :
    TextureViewDimension :=
  match dim with
  | .Dim1D => .e1D
  | .Dim2D => if arrayed then .e2DArray else .e2D
  | .Dim3D => .e3D
  | .DimCube => if arrayed then .CubeArray else .Cube

/-- ToWGPUTextureFormat from ShaderModule.cpp.  The spv::ImageFormat
overload and the shaderc_spvc_storage_texture_format overload enumerate the
same 33 format pairs with the same default (`Undefined`), so one function
models both. -/
def ToWGPUTextureFormat : SpvImageFormat → TextureFormat
  | .R8 => .R8Unorm
  | .R8Snorm => .R8Snorm
  | .R8ui => .R8Uint
  | .R8i => .R8Sint
  | .R16ui => .R16Uint
  | .R16i => .R16Sint
  | .R16f => .R16Float
  | .Rg8 => .RG8Unorm
  | .Rg8Snorm => .RG8Snorm
  | .Rg8ui => .RG8Uint
  | .Rg8i => .RG8Sint
  | .R32f => .R32Float
  | .R32ui => .R32Uint
  | .R32i => .R32Sint
  | .Rg16ui => .RG16Uint
  | .Rg16i => .RG16Sint
  | .Rg16f => .RG16Float
  | .Rgba8 => .RGBA8Unorm
  | .Rgba8Snorm => .RGBA8Snorm
  | .Rgba8ui => .RGBA8Uint
  | .Rgba8i => .RGBA8Sint
  | .Rgb10A2 => .RGB10A2Unorm
  | .R11fG11fB10f => .RG11B10Ufloat
  | .Rg32f => .RG32Float
  | .Rg32ui => .RG32Uint
  | .Rg32i => .RG32Sint
  | .Rgba16ui => .RGBA16Uint
  | .Rgba16i => .RGBA16Sint
  | .Rgba16f => .RGBA16Float
  | .Rgba32f => .RGBA32Float
  | .Rgba32ui => .RGBA32Uint
  | .Rgba32i => .RGBA32Sint
  | .Unknown => .Undefined

/-- ShaderModuleBase::ShaderBindingInfo.  Fields not assigned by a given
extraction case keep their value-initialized defaults. -/
structure ShaderBindingInfo where
  id : Nat := 0
  base_type_id : Nat := 0
  type : BindingType := .UniformBuffer
  multisampled : Bool := false
  viewDimension : TextureViewDimension := .Undefined
  textureComponentType : FormatType := .Float
  storageTextureFormat : TextureFormat := .Undefined
  minBufferBindingSize : Nat := 0
deriving DecidableEq, Repr

/-- One bind group's `std::map<BindingNumber, ShaderBindingInfo>`:
an association list sorted by binding number. -/
abbrev GroupBindingMap := List (Nat × ShaderBindingInfo)

/-- Membership test of a binding number in a group's map. -/
def mapContains (b : Nat) : GroupBindingMap → Bool
  | [] => false
  | (n, _) :: rest => n == b || mapContains b rest

/-- Lookup (`std::map::find`) of a binding number in a group's map. -/
def mapFind (b : Nat) : GroupBindingMap → Option ShaderBindingInfo
  | [] => none
  | (n, i) :: rest => if n == b then some i else mapFind b rest

/-- Sorted insertion into a group's map (`std::map::emplace` after the
duplicate check has already ruled the key out). -/
def mapInsert (b : Nat) (info : ShaderBindingInfo) : GroupBindingMap → GroupBindingMap
  | [] => [(b, info)]
  | (n, i) :: rest =>
    if b < n then (b, info) :: (n, i) :: rest
    else (n, i) :: mapInsert b info rest

/-- ModuleBindingInfo: the per-group array (size kMaxBindGroups = 4) of
binding maps. -/
structure ModuleBindings where
  group0 : GroupBindingMap := []
  group1 : GroupBindingMap := []
  group2 : GroupBindingMap := []
  group3 : GroupBindingMap := []
deriving DecidableEq, Repr

/-- Indexing `bindings[group]`.  Indices ≥ kMaxBindGroups are unreachable
in the embedded code (guarded by the group-limit check). -/
def ModuleBindings.group (bs : ModuleBindings) : Nat → GroupBindingMap
  | 0 => bs.group0
  | 1 => bs.group1
  | 2 => bs.group2
  | _ => bs.group3

/-- Insertion of a fresh (group, binding) key. -/
def ModuleBindings.insertAt (bs : ModuleBindings) (g b : Nat)
    (info : ShaderBindingInfo) : ModuleBindings :=
  match g with
  | 0 => { bs with group0 := mapInsert b info bs.group0 }
  | 1 => { bs with group1 := mapInsert b info bs.group1 }
  | 2 => { bs with group2 := mapInsert b info bs.group2 }
  | _ => { bs with group3 := mapInsert b info bs.group3 }

/-- The default fragment-output array: every color-attachment slot holds
Format::Type::Other (EntryPointMetadata's constructor). -/
def initialFragmentOutputs : List FormatType :=
  List.replicate kMaxColorAttachments .Other

/-- ShaderModuleBase::EntryPointMetadata.  `usedVertexAttributes` is the
`std::bitset<kMaxVertexAttributes>` encoded as a natural-number bitmask;
`fragmentOutputFormatBaseTypes` is the array of kMaxColorAttachments
Format::Type values. -/
structure EntryPointMetadata where
  stage : SingleShaderStage
  bindings : ModuleBindings := {}
  usedVertexAttributes : Nat := 0
  fragmentOutputFormatBaseTypes : List FormatType := initialFragmentOutputs
deriving DecidableEq, Repr

/-- Ground-truth facts about one declared resource of the binary IR, as
reported by either reflection library.  Both backends read the same module,
so one record feeds both. -/
structure IRResource where
  id : Nat := 0
  base_type_id : Nat := 0
  hasBinding : Bool := true
  binding : Nat := 0
  hasSet : Bool := true
  set : Nat := 0
  minBufferSize : Nat := 0
  nonWritable : Bool := false
  nonReadable : Bool := false
  isComparison : Bool := false
  multisampled : Bool := false
  dim : SpvDim := .Dim2D
  arrayed : Bool := false
  componentBaseType : SpirvBaseType := .Float
  imageFormat : SpvImageFormat := .Unknown
deriving DecidableEq, Repr

/-- Ground-truth facts about one stage input/output variable. -/
structure StageVar where
  id : Nat := 0
  hasLocation : Bool := true
  location : Nat := 0
  baseType : SpirvBaseType := .Float
deriving DecidableEq, Repr

/-- Abstract view of a valid binary IR module: everything the two
reflection libraries report about it, per resource class and stage
interface. -/
structure ShaderIRView where
  stage : SingleShaderStage := .Compute
  pushConstantCount : Nat := 0
  combinedImageSamplerCount : Nat := 0
  uniformBuffers : List IRResource := []
  separateImages : List IRResource := []
  separateSamplers : List IRResource := []
  storageBuffers : List IRResource := []
  storageImages : List IRResource := []
  stageInputs : List StageVar := []
  stageOutputs : List StageVar := []
deriving DecidableEq, Repr

/-- The format-capability-table lookup (`supportsStorageUsage` of
`device->GetValidInternalFormat(format)`), an external collaborator
consulted but not owned by this subsystem. -/
abbrev Caps := TextureFormat → Bool

/-- Shared skeleton of both backends' `ExtractResourcesBinding` lambdas:
backend-specific pre-checks, then the group-limit check, the duplicate-key
check, the backend-specific `ShaderBindingInfo` computation, and the
insertion, in the source's order. -/
def extractOneResource (pre : IRResource → Except String Unit)
    (mkInfo : IRResource → Except String ShaderBindingInfo)
    (bs : ModuleBindings) (r : IRResource) : Except String ModuleBindings :=
  match pre r with
  | .error e => .error e
  | .ok () =>
    if kMaxBindGroups ≤ r.set then
      .error "Bind group index over limits in the SPIRV"
    else if mapContains r.binding (bs.group r.set) then
      .error "Shader has duplicate bindings"
    else
      match mkInfo r with
      | .error e => .error e
      | .ok info => .ok (bs.insertAt r.set r.binding info)

/-- Fold of `extractOneResource` over one resource class. -/
def extractResourcesBinding (pre : IRResource → Except String Unit)
    (mkInfo : IRResource → Except String ShaderBindingInfo)
    (bs : ModuleBindings) : List IRResource → Except String ModuleBindings
  | [] => .ok bs
  | r :: rest =>
    match extractOneResource pre mkInfo bs r with
    | .error e => .error e
    | .ok bs' => extractResourcesBinding pre mkInfo bs' rest

/-- Decoration checks only the spirv-cross backend performs. -/
def crossDecorationCheck (r : IRResource) : Except String Unit :=
  if ¬ r.hasBinding then .error "No Binding decoration set for resource"
  else if ¬ r.hasSet then .error "No Descriptor Decoration set for resource"
  else .ok ()

/-- Is the binding-type hint one of the buffer kinds? -/
def isBufferBindingType (t : BindingType) : Bool :=
  t == .UniformBuffer || t == .StorageBuffer || t == .ReadonlyStorageBuffer

/-- Per-resource info computation of ExtractSpirvInfoWithSpirvCross,
dispatching on the binding-type hint of the resource class. -/
def crossBindingInfo (caps : Caps) (bindingType : BindingType)
    (r : IRResource) : Except String ShaderBindingInfo :=
  let info0 : ShaderBindingInfo := { id := r.id, base_type_id := r.base_type_id }
  let info1 := if isBufferBindingType bindingType then
      { info0 with minBufferBindingSize := r.minBufferSize }
    else info0
  match bindingType with
  | .SampledTexture =>
    .ok { info1 with
          multisampled := r.multisampled
          viewDimension := SpirvDimToTextureViewDimension r.dim r.arrayed
          textureComponentType := SpirvCrossBaseTypeToFormatType r.componentBaseType
          type := .SampledTexture }
  | .StorageBuffer =>
    .ok { info1 with
          type := if r.nonWritable then .ReadonlyStorageBuffer else .StorageBuffer }
  | .StorageTexture =>
    let ty : BindingType :=
      if r.nonReadable then .WriteonlyStorageTexture
      else if r.nonWritable then .ReadonlyStorageTexture
      else .StorageTexture
    let fmt := ToWGPUTextureFormat r.imageFormat
    if fmt = .Undefined then
      .error "Invalid image format declaration on storage image"
    else if ¬ caps fmt then
      .error "The storage texture format is not supported"
    else
      .ok { info1 with
            type := ty
            multisampled := r.multisampled
            storageTextureFormat := fmt
            viewDimension := SpirvDimToTextureViewDimension r.dim r.arrayed }
  | t => .ok { info1 with type := t }

/-- The five resource classes enumerated by both backends. -/
inductive ResourceClass
  | UniformBuffers
  | SeparateImages
  | SeparateSamplers
  | StorageBuffers
  | StorageImages
deriving DecidableEq, Repr

/-- The binding type the spvc library reports for a resource
(`binding.binding_type`).  Modelled from the spec: spvc performs the same
classification from the same IR facts (readonly storage buffers via the
non-writable qualifier, storage-image access qualifiers, comparison-sampler
analysis). -/
def spvcReportedType (cls : ResourceClass) (r : IRResource) : BindingType :=
  match cls with
  | .UniformBuffers => .UniformBuffer
  | .SeparateImages => .SampledTexture
  | .SeparateSamplers => if r.isComparison then .ComparisonSampler else .Sampler
  | .StorageBuffers =>
    if r.nonWritable then .ReadonlyStorageBuffer else .StorageBuffer
  | .StorageImages =>
    if r.nonReadable then .WriteonlyStorageTexture
    else if r.nonWritable then .ReadonlyStorageTexture
    else .StorageTexture

/-- Per-resource info computation of ExtractSpirvInfoWithSpvc's
`ExtractResourcesBinding` lambda (the switch over `info->type`). -/
def spvcBindingInfo (caps : Caps) (cls : ResourceClass)
    (r : IRResource) : Except String ShaderBindingInfo :=
  let ty := spvcReportedType cls r
  let info0 : ShaderBindingInfo :=
    { id := r.id, base_type_id := r.base_type_id, type := ty }
  match ty with
  | .SampledTexture =>
    .ok { info0 with
          multisampled := r.multisampled
          viewDimension := SpirvDimToTextureViewDimension r.dim r.arrayed
          textureComponentType := SpirvCrossBaseTypeToFormatType r.componentBaseType }
  | .StorageTexture | .ReadonlyStorageTexture | .WriteonlyStorageTexture =>
    let fmt := ToWGPUTextureFormat r.imageFormat
    if fmt = .Undefined then
      .error "Invalid image format declaration on storage image"
    else if ¬ caps fmt then
      .error "The storage texture format is not supported"
    else
      .ok { info0 with
            multisampled := r.multisampled
            storageTextureFormat := fmt
            viewDimension := SpirvDimToTextureViewDimension r.dim r.arrayed }
  | .UniformBuffer | .StorageBuffer | .ReadonlyStorageBuffer =>
    .ok { info0 with minBufferBindingSize := r.minBufferSize }
  | _ => .ok info0

/-- Vertex-input loop of ExtractSpirvInfoWithSpirvCross: every stage input
needs a Location decoration, locations stay below kMaxVertexAttributes, and
the used locations accumulate into the attribute bitmask. -/
def crossVertexInputs : List StageVar → Nat → Except String Nat
  | [], va => .ok va
  | v :: rest, va =>
    if ¬ v.hasLocation then
      .error "Unable to find Location decoration for Vertex input"
    else if kMaxVertexAttributes ≤ v.location then
      .error "Attribute location over limits in the SPIRV"
    else crossVertexInputs rest (va ||| 2 ^ v.location)

/-- Location-decoration requirement shared verbatim by both backends
(vertex stage outputs and fragment stage inputs). -/
def requireLocations (msg : String) : List StageVar → Except String Unit
  | [] => .ok ()
  | v :: rest =>
    if ¬ v.hasLocation then .error msg else requireLocations msg rest

/-- Fragment-output loop of ExtractSpirvInfoWithSpirvCross: Location
required, below kMaxColorAttachments, base type not Other, and the base
type is recorded at the output's location. -/
def crossFragmentOutputs : List StageVar → List FormatType →
    Except String (List FormatType)
  | [], fo => .ok fo
  | v :: rest, fo =>
    if ¬ v.hasLocation then
      .error "Unable to find Location decoration for Fragment output"
    else if kMaxColorAttachments ≤ v.location then
      .error "Fragment output location over limits in the SPIRV"
    else
      let formatType := SpirvCrossBaseTypeToFormatType v.baseType
      if formatType = .Other then .error "Unexpected Fragment output type"
      else crossFragmentOutputs rest (fo.set v.location formatType)

/-- ShaderModuleBase::ExtractSpirvInfoWithSpirvCross over the abstract IR
view. -/
def ExtractSpirvInfoWithSpirvCross (caps : Caps) (ir : ShaderIRView) :
    Except String EntryPointMetadata :=
  if 0 < ir.pushConstantCount then
    .error "Push constants aren't supported."
  else if 0 < ir.combinedImageSamplerCount then
    .error "Combined images and samplers aren't supported."
  else
    match extractResourcesBinding crossDecorationCheck
        (crossBindingInfo caps .UniformBuffer) {} ir.uniformBuffers with
    | .error e => .error e
    | .ok bs =>
    match extractResourcesBinding crossDecorationCheck
        (crossBindingInfo caps .SampledTexture) bs ir.separateImages with
    | .error e => .error e
    | .ok bs =>
    match extractResourcesBinding crossDecorationCheck
        (crossBindingInfo caps .Sampler) bs ir.separateSamplers with
    | .error e => .error e
    | .ok bs =>
    match extractResourcesBinding crossDecorationCheck
        (crossBindingInfo caps .StorageBuffer) bs ir.storageBuffers with
    | .error e => .error e
    | .ok bs =>
    match extractResourcesBinding crossDecorationCheck
        (crossBindingInfo caps .StorageTexture) bs ir.storageImages with
    | .error e => .error e
    | .ok bs =>
    match ir.stage with
    | .Vertex =>
      match crossVertexInputs ir.stageInputs 0 with
      | .error e => .error e
      | .ok va =>
        match requireLocations "Need location qualifier on vertex output"
            ir.stageOutputs with
        | .error e => .error e
        | .ok () => .ok { stage := .Vertex, bindings := bs,
                          usedVertexAttributes := va }
    | .Fragment =>
      match requireLocations "Need location qualifier on fragment input"
          ir.stageInputs with
      | .error e => .error e
      | .ok () =>
        match crossFragmentOutputs ir.stageOutputs initialFragmentOutputs with
        | .error e => .error e
        | .ok fo => .ok { stage := .Fragment, bindings := bs,
                          fragmentOutputFormatBaseTypes := fo }
    | .Compute => .ok { stage := .Compute, bindings := bs }

/-- Input-stage-location loop of ExtractSpirvInfoWithSpvc: vertex inputs
only get the limit check (no Location-decoration requirement), fragment
inputs require a location, compute ignores them. -/
def spvcInputStageLocations (stage : SingleShaderStage) :
    List StageVar → Nat → Except String Nat
  | [], va => .ok va
  | v :: rest, va =>
    match stage with
    | .Vertex =>
      if kMaxVertexAttributes ≤ v.location then
        .error "Attribute location over limits in the SPIRV"
      else spvcInputStageLocations stage rest (va ||| 2 ^ v.location)
    | .Fragment =>
      if ¬ v.hasLocation then
        .error "Need location qualifier on fragment input"
      else spvcInputStageLocations stage rest va
    | .Compute => spvcInputStageLocations stage rest va

/-- Output-stage-location loop of ExtractSpirvInfoWithSpvc: vertex outputs
require a location, fragment outputs only get the limit check. -/
def spvcOutputStageLocations (stage : SingleShaderStage) :
    List StageVar → Except String Unit
  | [] => .ok ()
  | v :: rest =>
    match stage with
    | .Vertex =>
      if ¬ v.hasLocation then
        .error "Need location qualifier on vertex output"
      else spvcOutputStageLocations stage rest
    | .Fragment =>
      if kMaxColorAttachments ≤ v.location then
        .error "Fragment output location over limits in the SPIRV"
      else spvcOutputStageLocations stage rest
    | .Compute => spvcOutputStageLocations stage rest

/-- Output-stage-type loop of ExtractSpirvInfoWithSpvc (fragment stage
only): base type Other is fatal, otherwise the type is recorded at the
output's location. -/
def spvcOutputStageTypes : List StageVar → List FormatType →
    Except String (List FormatType)
  | [], fo => .ok fo
  | v :: rest, fo =>
    let t := SpirvCrossBaseTypeToFormatType v.baseType
    if t = .Other then .error "Unexpected Fragment output type"
    else spvcOutputStageTypes rest (fo.set v.location t)

/-- ShaderModuleBase::ExtractSpirvInfoWithSpvc over the abstract IR
view. -/
def ExtractSpirvInfoWithSpvc (caps : Caps) (ir : ShaderIRView) :
    Except String EntryPointMetadata :=
  if 0 < ir.pushConstantCount then
    .error "Push constants aren't supported."
  else
    match extractResourcesBinding (fun _ => .ok ())
        (spvcBindingInfo caps .UniformBuffers) {} ir.uniformBuffers with
    | .error e => .error e
    | .ok bs =>
    match extractResourcesBinding (fun _ => .ok ())
        (spvcBindingInfo caps .SeparateImages) bs ir.separateImages with
    | .error e => .error e
    | .ok bs =>
    match extractResourcesBinding (fun _ => .ok ())
        (spvcBindingInfo caps .SeparateSamplers) bs ir.separateSamplers with
    | .error e => .error e
    | .ok bs =>
    match extractResourcesBinding (fun _ => .ok ())
        (spvcBindingInfo caps .StorageBuffers) bs ir.storageBuffers with
    | .error e => .error e
    | .ok bs =>
    match extractResourcesBinding (fun _ => .ok ())
        (spvcBindingInfo caps .StorageImages) bs ir.storageImages with
    | .error e => .error e
    | .ok bs =>
    match spvcInputStageLocations ir.stage ir.stageInputs 0 with
    | .error e => .error e
    | .ok va =>
    match spvcOutputStageLocations ir.stage ir.stageOutputs with
    | .error e => .error e
    | .ok () =>
    match ir.stage with
    | .Fragment =>
      match spvcOutputStageTypes ir.stageOutputs initialFragmentOutputs with
      | .error e => .error e
      | .ok fo => .ok { stage := .Fragment, bindings := bs,
                        usedVertexAttributes := va,
                        fragmentOutputFormatBaseTypes := fo }
    | s => .ok { stage := s, bindings := bs, usedVertexAttributes := va }

/-- BindingInfo of one bind-group-layout entry, as read by the
compatibility validator.  Modelled from the spec: the layout object
exposes, per binding, kind / visibility / view-dimension / component-type /
storage-format / minimum-size (BindGroupLayout.h is not part of the studied
sources). -/
structure LayoutBindingInfo where
  binding : Nat := 0
  visibility : Nat := 0
  type : BindingType := .UniformBuffer
  minBufferBindingSize : Nat := 0
  viewDimension : TextureViewDimension := .Undefined
  textureComponentType : FormatType := .Float
  storageTextureFormat : TextureFormat := .Undefined
deriving DecidableEq, Repr

/-- One bind-group layout.  Modelled from the spec: `entries` is the
layout's binding list in its packing order (buffer bindings first, the
first `bufferCount` entries), and the binding-number→index map sends a
binding number to the index of its entry. -/
structure BindGroupLayoutBase where
  entries : List LayoutBindingInfo := []
  bufferCount : Nat := 0
deriving DecidableEq, Repr

/-- GetBindingMap lookup followed by GetBindingInfo: the layout entry for a
binding number, if any. -/
def BindGroupLayoutBase.findBinding (layout : BindGroupLayoutBase)
    (b : Nat) : Option LayoutBindingInfo :=
  match layout.entries.findIdx? (fun e => e.binding == b) with
  | none => none
  | some idx => some (layout.entries.getD idx {})

/-- GetUnverifiedBufferCount.  Modelled from the spec: the number of buffer
bindings whose minimum size was not pinned by the layout. -/
def BindGroupLayoutBase.unverifiedBufferCount
    (layout : BindGroupLayoutBase) : Nat :=
  ((layout.entries.take layout.bufferCount).filter
    (fun bi => bi.minBufferBindingSize == 0)).length

/-- GetShaderDeclarationString from ShaderModule.cpp. -/
def GetShaderDeclarationString (group binding : Nat) : String :=
  "the shader module declaration at set " ++ toString group ++
    " binding " ++ toString binding

/-- The `validBindingConversion` relaxations of
ValidateCompatibilityWithBindGroupLayout. -/
def validBindingConversion (layoutType shaderType : BindingType) : Bool :=
  (layoutType == .StorageBuffer && shaderType == .ReadonlyStorageBuffer)
  || (layoutType == .Sampler && shaderType == .ComparisonSampler)
  || (layoutType == .ComparisonSampler && shaderType == .Sampler)

/-- Body of ValidateCompatibilityWithBindGroupLayout's loop for one shader
binding paired with its layout entry. -/
def checkBindingCompatibility (group : Nat) (stage : SingleShaderStage)
    (bindingNumber : Nat) (shaderInfo : ShaderBindingInfo)
    (layoutInfo : LayoutBindingInfo) : Except String Unit :=
  if layoutInfo.type ≠ shaderInfo.type ∧
      ¬ validBindingConversion layoutInfo.type shaderInfo.type then
    .error ("The binding type of the bind group layout entry conflicts " ++
      GetShaderDeclarationString group bindingNumber)
  else if layoutInfo.visibility &&& StageBit stage = 0 then
    .error ("The bind group layout entry for " ++
      GetShaderDeclarationString group bindingNumber ++
      " is not visible for the shader stage")
  else
    match layoutInfo.type with
    | .SampledTexture =>
      if layoutInfo.textureComponentType ≠ shaderInfo.textureComponentType then
        .error ("The textureComponentType of the bind group layout entry is different from " ++
          GetShaderDeclarationString group bindingNumber)
      else if layoutInfo.viewDimension ≠ shaderInfo.viewDimension then
        .error ("The viewDimension of the bind group layout entry is different from " ++
          GetShaderDeclarationString group bindingNumber)
      else .ok ()
    | .ReadonlyStorageTexture | .WriteonlyStorageTexture =>
      if layoutInfo.storageTextureFormat ≠ shaderInfo.storageTextureFormat then
        .error ("The storageTextureFormat of the bind group layout entry is different from " ++
          GetShaderDeclarationString group bindingNumber)
      else if layoutInfo.viewDimension ≠ shaderInfo.viewDimension then
        .error ("The viewDimension of the bind group layout entry is different from " ++
          GetShaderDeclarationString group bindingNumber)
      else .ok ()
    | .UniformBuffer | .ReadonlyStorageBuffer | .StorageBuffer =>
      if layoutInfo.minBufferBindingSize ≠ 0 ∧
          layoutInfo.minBufferBindingSize < shaderInfo.minBufferBindingSize then
        .error ("The minimum buffer size of the bind group layout entry is smaller than " ++
          GetShaderDeclarationString group bindingNumber)
      else .ok ()
    | .Sampler | .ComparisonSampler => .ok ()
    | .StorageTexture => .error "Unsupported binding type"

/-- The loop of ValidateCompatibilityWithBindGroupLayout over the shader's
bindings of one group. -/
def validateShaderBindings (group : Nat) (stage : SingleShaderStage)
    (layout : BindGroupLayoutBase) : GroupBindingMap → Except String Unit
  | [] => .ok ()
  | (b, shaderInfo) :: rest =>
    match layout.findBinding b with
    | none =>
      .error ("Missing bind group layout entry for " ++
        GetShaderDeclarationString group b)
    | some layoutInfo =>
      match checkBindingCompatibility group stage b shaderInfo layoutInfo with
      | .error e => .error e
      | .ok () => validateShaderBindings group stage layout rest

/-- ValidateCompatibilityWithBindGroupLayout from ShaderModule.cpp. -/
def ValidateCompatibilityWithBindGroupLayout (group : Nat)
    (entryPoint : EntryPointMetadata) (layout : BindGroupLayoutBase) :
    Except String Unit :=
  validateShaderBindings group entryPoint.stage layout
    (entryPoint.bindings.group group)

/-- The packed-index write loop of GetBindGroupMinBufferSizes: walk the
layout's buffer bindings; pinned bindings are skipped, every other binding
writes the shader's declared minimum size (0 when the shader does not
declare it) at the next packed index of the preallocated vector. -/
def minBufferSizesLoop (shaderBindings : GroupBindingMap) :
    List LayoutBindingInfo → Nat → List Nat → List Nat
  | [], _, acc => acc
  | bi :: rest, packedIdx, acc =>
    if bi.minBufferBindingSize ≠ 0 then
      minBufferSizesLoop shaderBindings rest packedIdx acc
    else
      let v := match mapFind bi.binding shaderBindings with
               | some si => si.minBufferBindingSize
               | none => 0
      minBufferSizesLoop shaderBindings rest (packedIdx + 1) (acc.set packedIdx v)

/-- GetBindGroupMinBufferSizes from ShaderModule.cpp: the vector is
preallocated to GetUnverifiedBufferCount and filled by the packed-index
loop over the first GetBufferCount layout entries. -/
def GetBindGroupMinBufferSizes (shaderBindings : GroupBindingMap)
    (layout : BindGroupLayoutBase) : List Nat :=
  minBufferSizesLoop shaderBindings (layout.entries.take layout.bufferCount)
    0 (List.replicate layout.unverifiedBufferCount 0)

/-- PipelineLayoutBase.  Modelled from the spec: an active-group bitmask
with one bind-group layout per active group; index g of `groups` is group
g, `some` marking membership of the active-group mask. -/
structure PipelineLayoutBase where
  groups : List (Option BindGroupLayoutBase) := []
deriving Repr

/-- The IterateBitSet loop of ComputeRequiredBufferSizesForLayout;
inactive groups keep the default-initialized empty vector. -/
def computeRequiredAux (ep : EntryPointMetadata) :
    Nat → List (Option BindGroupLayoutBase) → List (List Nat)
  | _, [] => []
  | g, some bgl :: rest =>
    GetBindGroupMinBufferSizes (ep.bindings.group g) bgl ::
      computeRequiredAux ep (g + 1) rest
  | g, none :: rest => [] :: computeRequiredAux ep (g + 1) rest

/-- ComputeRequiredBufferSizesForLayout from ShaderModule.cpp. -/
def ComputeRequiredBufferSizesForLayout (ep : EntryPointMetadata)
    (pl : PipelineLayoutBase) : List (List Nat) :=
  computeRequiredAux ep 0 pl.groups

/-- First loop of ValidateCompatibilityWithPipelineLayout: every active
group is validated against its bind-group layout. -/
def validateActiveGroups (ep : EntryPointMetadata) :
    Nat → List (Option BindGroupLayoutBase) → Except String Unit
  | _, [] => .ok ()
  | g, some bgl :: rest =>
    match ValidateCompatibilityWithBindGroupLayout g ep bgl with
    | .error e => .error e
    | .ok () => validateActiveGroups ep (g + 1) rest
  | g, none :: rest => validateActiveGroups ep (g + 1) rest

/-- Second loop of ValidateCompatibilityWithPipelineLayout: a group absent
from the active-group mask must have no shader bindings. -/
def validateInactiveGroups (ep : EntryPointMetadata) :
    Nat → List (Option BindGroupLayoutBase) → Except String Unit
  | _, [] => .ok ()
  | g, some _ :: rest => validateInactiveGroups ep (g + 1) rest
  | g, none :: rest =>
    if 0 < (ep.bindings.group g).length then
      .error ("No bind group layout entry matches the declaration set " ++
        toString g ++ " in the shader module")
    else validateInactiveGroups ep (g + 1) rest

/-- ValidateCompatibilityWithPipelineLayout from ShaderModule.cpp. -/
def ValidateCompatibilityWithPipelineLayout (ep : EntryPointMetadata)
    (pl : PipelineLayoutBase) : Except String Unit :=
  match validateActiveGroups ep 0 pl.groups with
  | .error e => .error e
  | .ok () => validateInactiveGroups ep 0 pl.groups

/-- ShaderModuleBase::Type: the Spirv / Wgsl discriminator. -/
inductive ModuleType
  | Undefined
  | Spirv
  | Wgsl
deriving DecidableEq, Repr

/-- The cache-relevant state of a ShaderModuleBase object. -/
structure ShaderModuleBase where
  mType : ModuleType := .Undefined
  mSpirv : List Nat := []
  mWgsl : String := ""
deriving DecidableEq, Repr

/-- Construction from a ShaderModuleSPIRVDescriptor: the code words are
copied into mSpirv. -/
def mkSpirvModule (code : List Nat) : ShaderModuleBase :=
  { mType := .Spirv, mSpirv := code }

/-- Construction from a ShaderModuleWGSLDescriptor: only the source string
is stored; mSpirv stays empty until InitializeBase runs the translation. -/
def mkWgslModule (source : String) : ShaderModuleBase :=
  { mType := .Wgsl, mWgsl := source }

/-- HashCombine over 64-bit size_t.  Modelled from the spec: the
order-sensitive combining hash of common/HashUtils.h (boost-style:
offset 0x9e3779b9, shifts by 6 and 2). -/
def hashCombine (h w : Nat) : Nat :=
  (h ^^^ (w + 2654435769 + h * 64 + h / 4)) % 2 ^ 64

/-- ShaderModuleBase::HashFunc: combine every SPIR-V word in order. -/
def ShaderModuleBase.HashFunc (m : ShaderModuleBase) : Nat :=
  m.mSpirv.foldl hashCombine 0

/-- ShaderModuleBase::EqualityFunc: exact SPIR-V word-sequence equality. -/
def ShaderModuleBase.EqualityFunc (a b : ShaderModuleBase) : Bool :=
  a.mSpirv == b.mSpirv

/-- kBCFormats from utils/TextureUtils.h. -/
def kBCFormats : List TextureFormat :=
  [.BC1RGBAUnorm, .BC1RGBAUnormSrgb,
   .BC2RGBAUnorm, .BC2RGBAUnormSrgb,
   .BC3RGBAUnorm, .BC3RGBAUnormSrgb,
   .BC4RUnorm, .BC4RSnorm,
   .BC5RGUnorm, .BC5RGSnorm,
   .BC6HRGBUfloat, .BC6HRGBFloat,
   .BC7RGBAUnorm, .BC7RGBAUnormSrgb]

/-- kETC2Formats from utils/TextureUtils.h. -/
def kETC2Formats : List TextureFormat :=
  [.ETC2RGB8Unorm, .ETC2RGB8UnormSrgb,
   .ETC2RGB8A1Unorm, .ETC2RGB8A1UnormSrgb,
   .ETC2RGBA8Unorm, .ETC2RGBA8UnormSrgb,
   .EACR11Unorm, .EACR11Snorm,
   .EACRG11Unorm, .EACRG11Snorm]

/-- kASTCFormats from utils/TextureUtils.h (currently empty). -/
def kASTCFormats : List TextureFormat := []

/-- kCompressedFormats from utils/TextureUtils.h. -/
def kCompressedFormats : List TextureFormat :=
  [.BC1RGBAUnorm, .BC1RGBAUnormSrgb,
   .BC2RGBAUnorm, .BC2RGBAUnormSrgb,
   .BC3RGBAUnorm, .BC3RGBAUnormSrgb,
   .BC4RUnorm, .BC4RSnorm,
   .BC5RGUnorm, .BC5RGSnorm,
   .BC6HRGBUfloat, .BC6HRGBFloat,
   .BC7RGBAUnorm, .BC7RGBAUnormSrgb,
   .ETC2RGB8Unorm, .ETC2RGB8UnormSrgb,
   .ETC2RGB8A1Unorm, .ETC2RGB8A1UnormSrgb,
   .ETC2RGBA8Unorm, .ETC2RGBA8UnormSrgb,
   .EACR11Unorm, .EACR11Snorm,
   .EACRG11Unorm, .EACRG11Snorm]

/-- Success test for an embedded fallible computation. -/
def exOk {α : Type} : Except String α → Bool
  | .ok _ => true
  | .error _ => false

/-- Minimal compute-stage metadata declaring one binding of the given kind
at (group 0, binding 0). -/
def epWithKind (t : BindingType) : EntryPointMetadata :=
  { stage := .Compute, bindings := { group0 := [(0, { type := t })] } }

/-- Minimal one-entry layout of the given kind at binding 0, visible to the
compute stage. -/
def bglWithKind (t : BindingType) : BindGroupLayoutBase :=
  { entries := [{ binding := 0, visibility := 4, type := t }] }

/-- Minimal compute-stage metadata declaring one buffer binding with the
given required minimum size at (group 0, binding 0). -/
def epWithBuffer (t : BindingType) (shaderMin : Nat) : EntryPointMetadata :=
  { stage := .Compute,
    bindings := { group0 := [(0, { type := t, minBufferBindingSize := shaderMin })] } }

/-- Minimal one-entry layout with the given buffer kind and pinned minimum
size at binding 0, visible to the compute stage. -/
def bglWithBuffer (t : BindingType) (layoutMin : Nat) : BindGroupLayoutBase :=
  { entries := [{ binding := 0, visibility := 4, type := t,
                  minBufferBindingSize := layoutMin }],
    bufferCount := 1 }

/-- Specification-side form of GetBindGroupMinBufferSizes, following the
spec's words: walk the layout's buffer bindings in layout order, skip any
binding whose pinned minimum size is nonzero, and for the remainder emit
the shader's declared minimum size if the shader declares that binding,
else zero. -/
def minBufferSizesSpec (shaderBindings : GroupBindingMap)
    (entries : List LayoutBindingInfo) : List Nat :=
  (entries.filter (fun bi => bi.minBufferBindingSize == 0)).map
    (fun bi =>
      match mapFind bi.binding shaderBindings with
      | some si => si.minBufferBindingSize
      | none => 0)

/-- BindingKey of a declared resource. -/
def resourceKey (r : IRResource) : Nat × Nat := (r.set, r.binding)

/-- All declared resources of a module, in the order both backends process
them (uniform buffers, separate images, separate samplers, storage
buffers, storage images). -/
def allResources (ir : ShaderIRView) : List IRResource :=
  ir.uniformBuffers ++ ir.separateImages ++ ir.separateSamplers ++
    ir.storageBuffers ++ ir.storageImages

/-- All declared BindingKeys of a module. -/
def allBindingKeys (ir : ShaderIRView) : List (Nat × Nat) :=
  (allResources ir).map resourceKey

/-- Membership of a BindingKey in the accumulated binding maps. -/
def hasKeyB (bs : ModuleBindings) (k : Nat × Nat) : Bool :=
  mapContains k.2 (bs.group k.1)

/-- A compute-stage module declaring exactly one storage image. -/
def storageImageModule (r : IRResource) : ShaderIRView :=
  { stage := .Compute, storageImages := [r] }

/-- The claim's classification of a storage image from its access
qualifiers: neither qualifier ⇒ read-write, non-readable ⇒ write-only,
only non-writable ⇒ read-only. -/
def classifyStorageImage (nonReadable nonWritable : Bool) : BindingType :=
  if nonReadable then .WriteonlyStorageTexture
  else if nonWritable then .ReadonlyStorageTexture
  else .StorageTexture

/-- A vertex-stage module declaring only stage inputs. -/
def vertexModule (inputs : List StageVar) : ShaderIRView :=
  { stage := .Vertex, stageInputs := inputs }

/-- The vertex-attribute bitmask accumulated from a list of located
inputs. -/
def attrMask (inputs : List StageVar) : Nat :=
  inputs.foldl (fun va v => va ||| 2 ^ v.location) 0

/-- Conditions under which the two reflection backends agree (the amended
form of the backend-parity claim): no combined image+sampler bindings,
every resource carries both the Binding and DescriptorSet decorations, no
comparison samplers, every vertex stage input carries a Location
decoration, and every fragment stage output carries a Location
decoration. -/
structure BackendAgreementConditions (ir : ShaderIRView) : Prop where
  no_combined : ir.combinedImageSamplerCount = 0
  decorated : ∀ r ∈ allResources ir, r.hasBinding = true ∧ r.hasSet = true
  no_comparison : ∀ r ∈ ir.separateSamplers, r.isComparison = false
  vertex_inputs_located :
    ir.stage = .Vertex → ∀ v ∈ ir.stageInputs, v.hasLocation = true
  fragment_outputs_located :
    ir.stage = .Fragment → ∀ v ∈ ir.stageOutputs, v.hasLocation = true

/-- Example layout for the required-buffer-sizes computation: three buffer
bindings, the middle one pinned to a nonzero minimum size. -/
def bglC4 : BindGroupLayoutBase :=
  { entries := [{ binding := 0 }, { binding := 1, minBufferBindingSize := 8 },
      { binding := 2 }],
    bufferCount := 3 }

/-- Example metadata declaring a buffer requirement only at binding 2. -/
def epC4 : EntryPointMetadata :=
  { stage := .Compute,
    bindings := { group0 := [(2, { minBufferBindingSize := 40 })] } }

/-- Example pipeline layout with `bglC4` as its only active group. -/
def plC4 : PipelineLayoutBase := { groups := [some bglC4] }

/-- Expected metadata for the one-storage-image module: the image is
classified from its access qualifiers and carries the mapped format. -/
def storageImageExpected (nr nw : Bool) (fmt : TextureFormat) : EntryPointMetadata :=
  { stage := .Compute,
    bindings :=
      { group0 :=
          [(0, { type := classifyStorageImage nr nw,
                 storageTextureFormat := fmt,
                 viewDimension := .e2D })] } }

/-- Specification-side description of storage-image reflection, following
the claim: an unmapped declared format is fatal, a mapped format without
storage-usage support is fatal, and otherwise the binding is classified by
the non-readable / non-writable qualifiers and carries the mapped
format. -/
def storageImageReflectSpec (caps : Caps) (nr nw : Bool) (f : SpvImageFormat) :
    Except String EntryPointMetadata :=
  if ToWGPUTextureFormat f = .Undefined then
    .error "Invalid image format declaration on storage image"
  else if ¬ caps (ToWGPUTextureFormat f) then
    .error "The storage texture format is not supported"
  else .ok (storageImageExpected nr nw (ToWGPUTextureFormat f))

/-- A module declaring the same BindingKey twice (once as a uniform
buffer, once as a storage buffer). -/
def dupKeyModule : ShaderIRView :=
  { stage := .Compute,
    uniformBuffers := [{ set := 0, binding := 1 }],
    storageBuffers := [{ set := 0, binding := 1 }] }

/-- The binding-type hint each resource class is extracted with in
ExtractSpirvInfoWithSpirvCross. -/
def classHint : ResourceClass → BindingType
  | .UniformBuffers => .UniformBuffer
  | .SeparateImages => .SampledTexture
  | .SeparateSamplers => .Sampler
  | .StorageBuffers => .StorageBuffer
  | .StorageImages => .StorageTexture

/-- The per-location fragment-output writes both backends perform on
success. -/
def applyFragmentOutputs (outs : List StageVar) (fo : List FormatType) : List FormatType :=
  outs.foldl
    (fun acc o => acc.set o.location (SpirvCrossBaseTypeToFormatType o.baseType)) fo

/-- A module declaring one combined image+sampler binding (a valid SPIR-V
construct the spirv-cross backend rejects and the spvc backend does
not). -/
def combinedSamplerModule : ShaderIRView :=
  { stage := .Compute, combinedImageSamplerCount := 1 }

/-- A well-decorated vertex module used to witness backend parity. -/
def parityWitnessModule : ShaderIRView :=
  { stage := .Vertex,
    uniformBuffers := [{ set := 0, binding := 2, minBufferSize := 16 }],
    stageInputs := [{ location := 1 }] }

/-- Claim C9: the size of the compressed texture-format set equals the sum
of the sizes of its BC, ETC2, and ASTC partitions (24 = 14 + 10 + 0), and
every element of the compressed set belongs to exactly one of those three
partitions. -/
theorem compressed_format_partition :
    (kCompressedFormats.length = 24 ∧ kBCFormats.length = 14 ∧
      kETC2Formats.length = 10 ∧ kASTCFormats.length = 0 ∧
      kCompressedFormats.length =
        kBCFormats.length + kETC2Formats.length + kASTCFormats.length) ∧
    ∀ f ∈ kCompressedFormats,
      ((f ∈ kBCFormats ∧ f ∉ kETC2Formats ∧ f ∉ kASTCFormats) ∨
       (f ∉ kBCFormats ∧ f ∈ kETC2Formats ∧ f ∉ kASTCFormats) ∨
       (f ∉ kBCFormats ∧ f ∉ kETC2Formats ∧ f ∈ kASTCFormats)) := by
  decide

/-- Witness for C9: instantiating the partition property at a concrete
member of the compressed set. -/
theorem compressed_format_partition_witness :
    (TextureFormat.BC1RGBAUnorm ∈ kBCFormats ∧
      TextureFormat.BC1RGBAUnorm ∉ kETC2Formats ∧
      TextureFormat.BC1RGBAUnorm ∉ kASTCFormats) ∨
    (TextureFormat.BC1RGBAUnorm ∉ kBCFormats ∧
      TextureFormat.BC1RGBAUnorm ∈ kETC2Formats ∧
      TextureFormat.BC1RGBAUnorm ∉ kASTCFormats) ∨
    (TextureFormat.BC1RGBAUnorm ∉ kBCFormats ∧
      TextureFormat.BC1RGBAUnorm ∉ kETC2Formats ∧
      TextureFormat.BC1RGBAUnorm ∈ kASTCFormats) :=
  compressed_format_partition.2 .BC1RGBAUnorm (by decide)

/-- Claim C10: cache identity of a shader module is determined solely by
its stored SPIR-V word vector — EqualityFunc is exact word-sequence
equality, equal word sequences give equal HashFunc values, and two
WGSL-constructed modules whose translation has not yet populated the
SPIR-V vector compare equal even with different source text. -/
theorem shader_module_cache_identity :
    (∀ a b : ShaderModuleBase, a.EqualityFunc b = true ↔ a.mSpirv = b.mSpirv) ∧
    (∀ a b : ShaderModuleBase, a.mSpirv = b.mSpirv → a.HashFunc = b.HashFunc) ∧
    (mkWgslModule "fn vs_one").EqualityFunc (mkWgslModule "fn vs_two") = true := by
  refine ⟨?_, ?_, rfl⟩
  · intro a b
    simp [ShaderModuleBase.EqualityFunc]
  · intro a b h
    simp [ShaderModuleBase.HashFunc, h]

/-- Witness for C10 at concrete modules with equal SPIR-V words. -/
theorem shader_module_cache_identity_witness :
    (mkSpirvModule [3, 7]).EqualityFunc (mkSpirvModule [3, 7]) = true ∧
    (mkSpirvModule [3, 7]).HashFunc = (mkSpirvModule [3, 7]).HashFunc :=
  ⟨(shader_module_cache_identity.1 _ _).mpr rfl,
   shader_module_cache_identity.2.1 _ _ rfl⟩

/-- Claim C2: with matching visibility, ValidateCompatibilityWithBindGroupLayout
rejects every binding-kind mismatch except exactly: layout StorageBuffer
with shader ReadonlyStorageBuffer, and Sampler paired with
ComparisonSampler in either direction; in particular the reverse storage
substitution (layout readonly, shader read-write) fails. -/
theorem binding_kind_mismatch_rules :
    ∀ layoutType shaderType : BindingType, layoutType ≠ shaderType →
      (exOk (ValidateCompatibilityWithBindGroupLayout 0
          (epWithKind shaderType) (bglWithKind layoutType)) = true ↔
        ((layoutType = .StorageBuffer ∧ shaderType = .ReadonlyStorageBuffer) ∨
         (layoutType = .Sampler ∧ shaderType = .ComparisonSampler) ∨
         (layoutType = .ComparisonSampler ∧ shaderType = .Sampler))) := by
  decide

/-- Witness for C2: the storage-buffer relaxation accepted at a concrete
mismatched pair. -/
theorem binding_kind_mismatch_rules_witness :
    exOk (ValidateCompatibilityWithBindGroupLayout 0
      (epWithKind .ReadonlyStorageBuffer) (bglWithKind .StorageBuffer)) = true :=
  (binding_kind_mismatch_rules .StorageBuffer .ReadonlyStorageBuffer
    (by decide)).mpr (Or.inl ⟨rfl, rfl⟩)

/-- Claim C3: for a buffer binding present in both shader and layout,
validation fails exactly when the layout pins a nonzero minimum size that
the shader's required size strictly exceeds; a pin of 64 against a shader
requirement of 128 fails, against 32 succeeds. -/
theorem buffer_min_size_rule :
    (∀ layoutMin shaderMin : Nat,
      (exOk (ValidateCompatibilityWithBindGroupLayout 0
          (epWithBuffer .UniformBuffer shaderMin)
          (bglWithBuffer .UniformBuffer layoutMin)) = true ↔
        (layoutMin = 0 ∨ shaderMin ≤ layoutMin)) ∧
      (exOk (ValidateCompatibilityWithBindGroupLayout 0
          (epWithBuffer .StorageBuffer shaderMin)
          (bglWithBuffer .StorageBuffer layoutMin)) = true ↔
        (layoutMin = 0 ∨ shaderMin ≤ layoutMin)) ∧
      (exOk (ValidateCompatibilityWithBindGroupLayout 0
          (epWithBuffer .ReadonlyStorageBuffer shaderMin)
          (bglWithBuffer .ReadonlyStorageBuffer layoutMin)) = true ↔
        (layoutMin = 0 ∨ shaderMin ≤ layoutMin))) ∧
    exOk (ValidateCompatibilityWithBindGroupLayout 0
      (epWithBuffer .StorageBuffer 128) (bglWithBuffer .StorageBuffer 64)) = false ∧
    exOk (ValidateCompatibilityWithBindGroupLayout 0
      (epWithBuffer .StorageBuffer 32) (bglWithBuffer .StorageBuffer 64)) = true := by
  refine ⟨fun layoutMin shaderMin => ⟨?_, ?_, ?_⟩, by decide, by decide⟩ <;>
  · simp only [ValidateCompatibilityWithBindGroupLayout, epWithBuffer, bglWithBuffer,
      validateShaderBindings, BindGroupLayoutBase.findBinding, ModuleBindings.group,
      checkBindingCompatibility, validBindingConversion, StageBit]
    norm_num
    split <;> rename_i h <;> split at h <;> rename_i hcond
    · simp [exOk]; omega
    · exact absurd h (by simp)
    · exact absurd h (by simp)
    · simp [exOk, validateShaderBindings]; omega

/-- Helper for C5: the second loop of ValidateCompatibilityWithPipelineLayout
fails whenever some inactive group has shader bindings. -/
theorem validateInactiveGroups_err (ep : EntryPointMetadata) :
    ∀ (l : List (Option BindGroupLayoutBase)) (g0 i : Nat),
      l.get? i = some none → ep.bindings.group (g0 + i) ≠ [] →
        exOk (validateInactiveGroups ep g0 l) = false := by
  intro l
  induction l with
  | nil => intro g0 i h _; simp at h
  | cons hd tl ih =>
    intro g0 i h hne
    cases i with
    | zero =>
      simp at h
      subst h
      simp only [Nat.add_zero] at hne
      have hlen : 0 < (ep.bindings.group g0).length := List.length_pos.mpr hne
      simp [validateInactiveGroups, hlen, exOk]
    | succ j =>
      simp only [List.get?_cons_succ] at h
      have hne' : ep.bindings.group ((g0 + 1) + j) ≠ [] := by
        have : (g0 + 1) + j = g0 + (j + 1) := by omega
        rw [this]; exact hne
      cases hd with
      | some a => simpa [validateInactiveGroups] using ih (g0 + 1) j h hne'
      | none =>
        by_cases hg : 0 < (ep.bindings.group g0).length
        · simp [validateInactiveGroups, hg, exOk]
        · simpa [validateInactiveGroups, hg] using ih (g0 + 1) j h hne'

/-- Claim C5: whole-pipeline validation fails whenever some bind-group
index carrying at least one shader binding is not in the pipeline layout's
active-group mask, regardless of the bindings' contents. -/
theorem pipeline_missing_group (ep : EntryPointMetadata) (pl : PipelineLayoutBase)
    (g : Nat) (hg : pl.groups.get? g = some none)
    (hne : ep.bindings.group g ≠ []) :
    exOk (ValidateCompatibilityWithPipelineLayout ep pl) = false := by
  unfold ValidateCompatibilityWithPipelineLayout
  cases hA : validateActiveGroups ep 0 pl.groups with
  | error e => simp [exOk]
  | ok u =>
    cases u
    exact validateInactiveGroups_err ep pl.groups 0 g hg (by simpa using hne)

/-- Witness for C5: a layout declaring only group 0 against a shader
declaring a binding in group 1 fails whole-pipeline validation. -/
theorem pipeline_missing_group_witness :
    ({ groups := [some {}, none, none, none] } : PipelineLayoutBase).groups.get? 1 =
      some none ∧
    ({ stage := .Compute, bindings := { group1 := [(0, {})] } } :
      EntryPointMetadata).bindings.group 1 ≠ [] ∧
    exOk (ValidateCompatibilityWithPipelineLayout
      { stage := .Compute, bindings := { group1 := [(0, {})] } }
      { groups := [some {}, none, none, none] }) = false :=
  ⟨rfl, by decide, pipeline_missing_group _ _ 1 rfl (by decide)⟩

/-- Helper for C4: the packed-index write loop of GetBindGroupMinBufferSizes
refines the spec-side filter/map description whenever the preallocated
vector's length matches the number of unpinned buffer bindings. -/
theorem minBufferSizesLoop_spec (sh : GroupBindingMap) :
    ∀ (l : List LayoutBindingInfo) (k : Nat) (acc : List Nat),
      acc.length = k + (l.filter (fun bi => bi.minBufferBindingSize == 0)).length →
      minBufferSizesLoop sh l k acc = acc.take k ++ minBufferSizesSpec sh l := by
  intro l
  induction l with
  | nil =>
    intro k acc hlen
    simp only [List.filter_nil, List.length_nil, Nat.add_zero] at hlen
    simp [minBufferSizesLoop, minBufferSizesSpec, ← hlen, List.take_length]
  | cons bi rest ih =>
    intro k acc hlen
    by_cases hpin : bi.minBufferBindingSize = 0
    · have hfil : (bi :: rest).filter (fun bi => bi.minBufferBindingSize == 0) =
          bi :: rest.filter (fun bi => bi.minBufferBindingSize == 0) := by
        simp [List.filter_cons, hpin]
      rw [hfil] at hlen
      simp only [List.length_cons] at hlen
      have hk : k < acc.length := by omega
      have hlen' : (acc.set k (match mapFind bi.binding sh with
          | some si => si.minBufferBindingSize
          | none => 0)).length =
          (k + 1) + (rest.filter (fun bi => bi.minBufferBindingSize == 0)).length := by
        simp [List.length_set]; omega
      simp only [minBufferSizesLoop, hpin, ne_eq, not_true_eq_false, if_false,
        ite_false, not_false_eq_true, if_true]
      rw [ih (k + 1) _ hlen']
      have hset : (acc.set k (match mapFind bi.binding sh with
          | some si => si.minBufferBindingSize
          | none => 0)).take (k + 1) =
          acc.take k ++ [(match mapFind bi.binding sh with
          | some si => si.minBufferBindingSize
          | none => 0)] := by
        rw [List.set_eq_take_cons_drop _ hk]
        rw [List.take_append_eq_append_take]
        have h1 : (acc.take k).length = k := by simp [List.length_take]; omega
        rw [List.take_of_length_le (by omega)]
        rw [h1]
        simp
      rw [hset]
      simp [minBufferSizesSpec, List.filter_cons, hpin]
    · have hfil : (bi :: rest).filter (fun bi => bi.minBufferBindingSize == 0) =
          rest.filter (fun bi => bi.minBufferBindingSize == 0) := by
        simp [List.filter_cons, hpin]
      rw [hfil] at hlen
      simp only [minBufferSizesLoop, hpin, ne_eq, not_false_eq_true, if_true,
        ite_true]
      rw [ih k acc hlen]
      simp [minBufferSizesSpec, List.filter_cons, hpin]

/-- Helper for C4: GetBindGroupMinBufferSizes equals the spec-side
description over the layout's buffer bindings. -/
theorem getBindGroupMinBufferSizes_spec (sh : GroupBindingMap)
    (layout : BindGroupLayoutBase) :
    GetBindGroupMinBufferSizes sh layout =
      minBufferSizesSpec sh (layout.entries.take layout.bufferCount) := by
  unfold GetBindGroupMinBufferSizes
  rw [minBufferSizesLoop_spec sh _ 0 _ (by
    simp [BindGroupLayoutBase.unverifiedBufferCount])]
  simp
/-- Helper for C4: the per-group result of the active-group walk. -/
theorem computeRequiredAux_get (ep : EntryPointMetadata) :
    ∀ (l : List (Option BindGroupLayoutBase)) (g0 i : Nat) (bgl : BindGroupLayoutBase),
      l.get? i = some (some bgl) →
      (computeRequiredAux ep g0 l).get? i =
        some (GetBindGroupMinBufferSizes (ep.bindings.group (g0 + i)) bgl) := by
  intro l
  induction l with
  | nil => intro g0 i bgl h; simp at h
  | cons hd tl ih =>
    intro g0 i bgl h
    cases i with
    | zero =>
      simp at h
      subst h
      simp [computeRequiredAux]
    | succ j =>
      simp only [List.get?_cons_succ] at h
      have harith : (g0 + 1) + j = g0 + (j + 1) := by omega
      cases hd with
      | some a =>
        simpa [computeRequiredAux, harith] using ih (g0 + 1) j bgl h
      | none =>
        simpa [computeRequiredAux, harith] using ih (g0 + 1) j bgl h

/-- Claim C4: for every active group, ComputeRequiredBufferSizesForLayout
emits one entry per layout buffer binding whose pinned minimum size is
zero, in layout order, each equal to the shader's declared minimum size
when declared and zero otherwise; pinned bindings produce no entry, and
the computation is total (it cannot fail by construction). -/
theorem compute_required_buffer_sizes (ep : EntryPointMetadata)
    (pl : PipelineLayoutBase) (g : Nat) (bgl : BindGroupLayoutBase)
    (h : pl.groups.get? g = some (some bgl)) :
    (ComputeRequiredBufferSizesForLayout ep pl).get? g =
      some (minBufferSizesSpec (ep.bindings.group g)
        (bgl.entries.take bgl.bufferCount)) := by
  unfold ComputeRequiredBufferSizesForLayout
  rw [computeRequiredAux_get ep pl.groups 0 g bgl h]
  rw [Nat.zero_add, getBindGroupMinBufferSizes_spec]

/-- Witness for C4: a pinned binding is skipped, an undeclared slot emits
0, and a declared slot emits the shader's size. -/
theorem compute_required_buffer_sizes_witness :
    plC4.groups.get? 0 = some (some bglC4) ∧
    (ComputeRequiredBufferSizesForLayout epC4 plC4).get? 0 = some [0, 40] :=
  ⟨rfl, (compute_required_buffer_sizes epC4 plC4 0 bglC4 rfl).trans (by decide)⟩
/-- Claim C7: under both backends, a storage-image binding is classified
read-write when neither access qualifier is set, write-only when
non-readable is set, read-only when only non-writable is set; reflection
fails when the declared image format has no mapping into the texture-format
enumeration or the mapped format lacks storage-usage support. -/
theorem storage_image_reflection (caps : Caps) (nr nw : Bool) (f : SpvImageFormat) :
    ExtractSpirvInfoWithSpirvCross caps (storageImageModule
        { nonReadable := nr, nonWritable := nw, imageFormat := f }) =
      storageImageReflectSpec caps nr nw f ∧
    ExtractSpirvInfoWithSpvc caps (storageImageModule
        { nonReadable := nr, nonWritable := nw, imageFormat := f }) =
      storageImageReflectSpec caps nr nw f := by
  constructor <;>
  · cases nr <;> cases nw <;>
    by_cases hf : ToWGPUTextureFormat f = .Undefined <;>
    by_cases hc : caps (ToWGPUTextureFormat f) = true <;>
    simp [ExtractSpirvInfoWithSpirvCross, ExtractSpirvInfoWithSpvc,
      storageImageModule, extractResourcesBinding, extractOneResource,
      crossDecorationCheck, crossBindingInfo, spvcBindingInfo, spvcReportedType,
      classifyStorageImage, mapContains, ModuleBindings.group,
      ModuleBindings.insertAt, mapInsert, kMaxBindGroups,
      spvcInputStageLocations, spvcOutputStageLocations,
      storageImageReflectSpec, storageImageExpected,
      SpirvDimToTextureViewDimension, hf, hc]

/-- Helper for C8: on a vertex module with only stage inputs, the
spirv-cross backend reduces to its vertex-input loop. -/
theorem cross_vertexModule (caps : Caps) (inputs : List StageVar) :
    ExtractSpirvInfoWithSpirvCross caps (vertexModule inputs) =
      match crossVertexInputs inputs 0 with
      | .error e => .error e
      | .ok va => .ok { stage := .Vertex, usedVertexAttributes := va } := by
  cases h : crossVertexInputs inputs 0 <;>
    simp [ExtractSpirvInfoWithSpirvCross, vertexModule, extractResourcesBinding,
      requireLocations, h]

/-- Helper for C8: on a vertex module with only stage inputs, the spvc
backend reduces to its input-stage-location loop. -/
theorem spvc_vertexModule (caps : Caps) (inputs : List StageVar) :
    ExtractSpirvInfoWithSpvc caps (vertexModule inputs) =
      match spvcInputStageLocations .Vertex inputs 0 with
      | .error e => .error e
      | .ok va => .ok { stage := .Vertex, usedVertexAttributes := va } := by
  cases h : spvcInputStageLocations .Vertex inputs 0 <;>
    simp [ExtractSpirvInfoWithSpvc, vertexModule, extractResourcesBinding,
      spvcOutputStageLocations, h]

/-- Helper for C8: the spirv-cross vertex-input loop fails when some input
lacks a Location decoration. -/
theorem crossVertexInputs_unlocated :
    ∀ (inputs : List StageVar) (va : Nat), (∃ v ∈ inputs, v.hasLocation = false) →
      exOk (crossVertexInputs inputs va) = false := by
  intro inputs
  induction inputs with
  | nil => intro va h; simp at h
  | cons v rest ih =>
    intro va ⟨w, hw, hwl⟩
    by_cases hl : v.hasLocation
    · have hw' : w ∈ rest := by
        rcases List.mem_cons.mp hw with h1 | h1
        · subst h1; rw [hwl] at hl; simp at hl
        · exact h1
      by_cases hloc : kMaxVertexAttributes ≤ v.location
      · simp [crossVertexInputs, hl, hloc, exOk]
      · simpa [crossVertexInputs, hl, hloc] using ih _ ⟨w, hw', hwl⟩
    · simp [crossVertexInputs, hl, exOk]

/-- Helper for C8: the spirv-cross vertex-input loop fails when some input
location reaches kMaxVertexAttributes. -/
theorem crossVertexInputs_overlimit :
    ∀ (inputs : List StageVar) (va : Nat),
      (∃ v ∈ inputs, kMaxVertexAttributes ≤ v.location) →
      exOk (crossVertexInputs inputs va) = false := by
  intro inputs
  induction inputs with
  | nil => intro va h; simp at h
  | cons v rest ih =>
    intro va ⟨w, hw, hwl⟩
    by_cases hl : v.hasLocation
    · by_cases hloc : kMaxVertexAttributes ≤ v.location
      · simp [crossVertexInputs, hl, hloc, exOk]
      · have hw' : w ∈ rest := by
          rcases List.mem_cons.mp hw with h1 | h1
          · subst h1; exact absurd hwl hloc
          · exact h1
        simpa [crossVertexInputs, hl, hloc] using ih _ ⟨w, hw', hwl⟩
    · simp [crossVertexInputs, hl, exOk]

/-- Helper for C8: the spvc input loop fails when some vertex input
location reaches kMaxVertexAttributes. -/
theorem spvcVertexInputs_overlimit :
    ∀ (inputs : List StageVar) (va : Nat),
      (∃ v ∈ inputs, kMaxVertexAttributes ≤ v.location) →
      exOk (spvcInputStageLocations .Vertex inputs va) = false := by
  intro inputs
  induction inputs with
  | nil => intro va h; simp at h
  | cons v rest ih =>
    intro va ⟨w, hw, hwl⟩
    by_cases hloc : kMaxVertexAttributes ≤ v.location
    · simp [spvcInputStageLocations, hloc, exOk]
    · have hw' : w ∈ rest := by
        rcases List.mem_cons.mp hw with h1 | h1
        · subst h1; exact absurd hwl hloc
        · exact h1
      simpa [spvcInputStageLocations, hloc] using ih _ ⟨w, hw', hwl⟩

/-- Helper for C8: with all inputs located below the limit, the
spirv-cross loop accumulates exactly the declared locations. -/
theorem crossVertexInputs_ok :
    ∀ (inputs : List StageVar) (va : Nat),
      (∀ v ∈ inputs, v.hasLocation = true ∧ v.location < kMaxVertexAttributes) →
      crossVertexInputs inputs va =
        .ok (inputs.foldl (fun acc v => acc ||| 2 ^ v.location) va) := by
  intro inputs
  induction inputs with
  | nil => intro va _; simp [crossVertexInputs]
  | cons v rest ih =>
    intro va h
    have hv := h v (List.mem_cons_self v rest)
    have hrest : ∀ w ∈ rest, w.hasLocation = true ∧ w.location < kMaxVertexAttributes :=
      fun w hw => h w (List.mem_cons_of_mem v hw)
    simp [crossVertexInputs, hv.1, Nat.not_le.mpr hv.2, ih _ hrest]

/-- Helper for C8: with all input locations below the limit, the spvc
loop accumulates exactly the declared locations. -/
theorem spvcVertexInputs_ok :
    ∀ (inputs : List StageVar) (va : Nat),
      (∀ v ∈ inputs, v.location < kMaxVertexAttributes) →
      spvcInputStageLocations .Vertex inputs va =
        .ok (inputs.foldl (fun acc v => acc ||| 2 ^ v.location) va) := by
  intro inputs
  induction inputs with
  | nil => intro va _; simp [spvcInputStageLocations]
  | cons v rest ih =>
    intro va h
    have hv := h v (List.mem_cons_self v rest)
    have hrest : ∀ w ∈ rest, w.location < kMaxVertexAttributes :=
      fun w hw => h w (List.mem_cons_of_mem v hw)
    simp [spvcInputStageLocations, Nat.not_le.mpr hv, ih _ hrest]

/-- Claim C8 (amended): for a vertex-stage module, the spirv-cross
backend fails when any stage input lacks an explicit location decoration;
both backends fail when any input location is ≥ kMaxVertexAttributes; and
with every input located below the limit, both backends record exactly the
declared locations in the usedVertexAttributes bitset.  (The original
claim said either backend rejects an unlocated input; the spvc backend
performs no such check — see the counterexample.) -/
theorem vertex_input_reflection (caps : Caps) (inputs : List StageVar) :
    ((∃ v ∈ inputs, v.hasLocation = false) →
      exOk (ExtractSpirvInfoWithSpirvCross caps (vertexModule inputs)) = false) ∧
    ((∃ v ∈ inputs, kMaxVertexAttributes ≤ v.location) →
      exOk (ExtractSpirvInfoWithSpirvCross caps (vertexModule inputs)) = false ∧
      exOk (ExtractSpirvInfoWithSpvc caps (vertexModule inputs)) = false) ∧
    ((∀ v ∈ inputs, v.hasLocation = true ∧ v.location < kMaxVertexAttributes) →
      ExtractSpirvInfoWithSpirvCross caps (vertexModule inputs) =
        .ok { stage := .Vertex, usedVertexAttributes := attrMask inputs } ∧
      ExtractSpirvInfoWithSpvc caps (vertexModule inputs) =
        .ok { stage := .Vertex, usedVertexAttributes := attrMask inputs }) := by
  refine ⟨?_, ?_, ?_⟩
  · intro h
    rw [cross_vertexModule]
    have := crossVertexInputs_unlocated inputs 0 h
    cases hc : crossVertexInputs inputs 0 with
    | error e => simp [exOk]
    | ok va => rw [hc] at this; simp [exOk] at this
  · intro h
    constructor
    · rw [cross_vertexModule]
      have := crossVertexInputs_overlimit inputs 0 h
      cases hc : crossVertexInputs inputs 0 with
      | error e => simp [exOk]
      | ok va => rw [hc] at this; simp [exOk] at this
    · rw [spvc_vertexModule]
      have := spvcVertexInputs_overlimit inputs 0 h
      cases hc : spvcInputStageLocations .Vertex inputs 0 with
      | error e => simp [exOk]
      | ok va => rw [hc] at this; simp [exOk] at this
  · intro h
    constructor
    · rw [cross_vertexModule, crossVertexInputs_ok inputs 0 h]
      rfl
    · rw [spvc_vertexModule, spvcVertexInputs_ok inputs 0 (fun w hw => (h w hw).2)]
      rfl
/-- Counterexample for C8 as stated: on a vertex module whose single
stage input lacks a location decoration, the spvc backend succeeds while
the spirv-cross backend fails, so reflection under "either backend" does
not fail. -/
theorem vertex_input_location_counterexample :
    exOk (ExtractSpirvInfoWithSpvc (fun _ => true)
      (vertexModule [{ hasLocation := false }])) = true ∧
    exOk (ExtractSpirvInfoWithSpirvCross (fun _ => true)
      (vertexModule [{ hasLocation := false }])) = false := by
  decide

/-- Witness for C8 (amended): the missing-location input fails under
spirv-cross, and inputs at locations 0, 2, 5 reflect to the bitset
with exactly bits 0, 2 and 5 set (37) under both backends. -/
theorem vertex_input_reflection_witness :
    exOk (ExtractSpirvInfoWithSpirvCross (fun _ => true)
      (vertexModule [{ hasLocation := false }])) = false ∧
    ExtractSpirvInfoWithSpirvCross (fun _ => true)
        (vertexModule [{ location := 0 }, { location := 2 }, { location := 5 }]) =
      .ok { stage := .Vertex, usedVertexAttributes := 37 } ∧
    ExtractSpirvInfoWithSpvc (fun _ => true)
        (vertexModule [{ location := 0 }, { location := 2 }, { location := 5 }]) =
      .ok { stage := .Vertex, usedVertexAttributes := 37 } := by
  have h3 := (vertex_input_reflection (fun _ => true)
      [{ location := 0 }, { location := 2 }, { location := 5 }]).2.2 (by decide)
  have hmask : attrMask [{ location := 0 }, { location := 2 }, { location := 5 }] = 37 := by
    decide
  refine ⟨(vertex_input_reflection (fun _ => true) [{ hasLocation := false }]).1
      ⟨{ hasLocation := false }, by simp, rfl⟩, ?_, ?_⟩
  · rw [← hmask]; exact h3.1
  · rw [← hmask]; exact h3.2

/-- Helper for C6: membership after a sorted insertion. -/
theorem mem_mapInsert (x b : Nat) (info : ShaderBindingInfo) :
    ∀ m : GroupBindingMap,
      mapContains x (mapInsert b info m) = true ↔ (x = b ∨ mapContains x m = true) := by
  intro m
  induction m with
  | nil => simp [mapInsert, mapContains]; exact eq_comm
  | cons hd tl ih =>
    obtain ⟨n, i⟩ := hd
    by_cases hb : b < n
    · simp [mapInsert, if_pos hb, mapContains]
      rw [eq_comm]
    · simp [mapInsert, if_neg hb, mapContains, ih]
      rw [or_left_comm]
/-- Helper for C6: the empty binding map holds no key. -/
theorem hasKeyB_empty (k : Nat × Nat) : hasKeyB {} k = false := by
  obtain ⟨g, b⟩ := k
  unfold hasKeyB ModuleBindings.group
  split <;> rfl

/-- Helper for C6: key membership after inserting at a valid group. -/
theorem hasKeyB_insertAt (bs : ModuleBindings) (g b : Nat) (hg : g < kMaxBindGroups)
    (info : ShaderBindingInfo) (k : Nat × Nat) (hk : k.1 < kMaxBindGroups) :
    hasKeyB (bs.insertAt g b info) k = true ↔ (k = (g, b) ∨ hasKeyB bs k = true) := by
  obtain ⟨kg, kb⟩ := k
  simp only [kMaxBindGroups] at hg hk
  interval_cases g <;> interval_cases kg <;>
    simp [ModuleBindings.insertAt, ModuleBindings.group, hasKeyB, mem_mapInsert,
      Prod.mk.injEq]
/-- Helper for C6: a successful single-resource extraction implies the
group index was in range, the key was fresh, and exactly that key was
added. -/
theorem extractOneResource_ok {pre : IRResource → Except String Unit}
    {mkInfo : IRResource → Except String ShaderBindingInfo}
    {bs : ModuleBindings} {r : IRResource} {bs' : ModuleBindings}
    (h : extractOneResource pre mkInfo bs r = .ok bs') :
    r.set < kMaxBindGroups ∧ hasKeyB bs (resourceKey r) = false ∧
    ∀ k, k.1 < kMaxBindGroups →
      (hasKeyB bs' k = true ↔ (k = resourceKey r ∨ hasKeyB bs k = true)) := by
  unfold extractOneResource at h
  cases hp : pre r with
  | error e => rw [hp] at h; exact absurd h (by simp)
  | ok u =>
    cases u
    rw [hp] at h
    by_cases hset : kMaxBindGroups ≤ r.set
    · rw [if_pos hset] at h; exact absurd h (by simp)
    · rw [if_neg hset] at h
      by_cases hdup : mapContains r.binding (bs.group r.set) = true
      · rw [if_pos hdup] at h; exact absurd h (by simp)
      · rw [if_neg hdup] at h
        cases hm : mkInfo r with
        | error e => rw [hm] at h; exact absurd h (by simp)
        | ok info =>
          rw [hm] at h
          have hbs' : bs' = bs.insertAt r.set r.binding info := by
            cases h; rfl
          subst hbs'
          refine ⟨by omega, by simpa [hasKeyB, resourceKey] using hdup, ?_⟩
          intro k hk
          exact hasKeyB_insertAt bs r.set r.binding (by omega) info k hk

/-- Helper for C6: a successful class extraction implies its keys are
pairwise distinct, fresh with respect to the incoming maps, and exactly
they were added. -/
theorem extractResourcesBinding_ok {pre : IRResource → Except String Unit}
    {mkInfo : IRResource → Except String ShaderBindingInfo} :
    ∀ (rs : List IRResource) (bs bs' : ModuleBindings),
      extractResourcesBinding pre mkInfo bs rs = .ok bs' →
      (rs.map resourceKey).Nodup ∧
      (∀ k ∈ rs.map resourceKey, hasKeyB bs k = false) ∧
      (∀ k, k.1 < kMaxBindGroups →
        (hasKeyB bs' k = true ↔ (k ∈ rs.map resourceKey ∨ hasKeyB bs k = true))) ∧
      (∀ r ∈ rs, r.set < kMaxBindGroups) := by
  intro rs
  induction rs with
  | nil =>
    intro bs bs' h
    simp [extractResourcesBinding] at h
    subst h
    simp
  | cons r rest ih =>
    intro bs bs' h
    simp only [extractResourcesBinding] at h
    cases h1 : extractOneResource pre mkInfo bs r with
    | error e => simp only [h1] at h; exact absurd h (by simp)
    | ok bs1 =>
      simp only [h1] at h
      obtain ⟨hset, hnk, hchar⟩ := extractOneResource_ok h1
      obtain ⟨hnd, hdisj, hchar', hsets⟩ := ih bs1 bs' h
      have hrestlt : ∀ k ∈ rest.map resourceKey, k.1 < kMaxBindGroups := by
        intro k hk
        obtain ⟨rr, hrr, hrk⟩ := List.mem_map.mp hk
        rw [← hrk]
        exact hsets rr hrr
      refine ⟨?_, ?_, ?_, ?_⟩
      · refine List.Nodup.cons ?_ hnd
        intro hmem
        have := hdisj (resourceKey r) hmem
        have h2 := (hchar (resourceKey r) (by simpa [resourceKey] using hset)).mpr
          (Or.inl rfl)
        rw [this] at h2
        exact absurd h2 (by simp)
      · intro k hk
        rcases List.mem_cons.mp hk with h2 | h2
        · rw [h2]; exact hnk
        · have hfalse := hdisj k h2
          have hklt := hrestlt k h2
          have := (hchar k hklt)
          by_contra hbk
          have hbk' : hasKeyB bs k = true := by
            cases hx : hasKeyB bs k
            · exact absurd hx (by simpa using hbk)
            · rfl
          have := (hchar k hklt).mpr (Or.inr hbk')
          rw [hfalse] at this
          exact absurd this (by simp)
      · intro k hklt
        rw [hchar' k hklt, hchar k hklt]
        simp only [List.map_cons, List.mem_cons]
        tauto
      · intro rr hrr
        rcases List.mem_cons.mp hrr with h2 | h2
        · rw [h2]; exact hset
        · exact hsets rr h2
/-- Helper for C6: composing one class extraction onto an accumulated,
characterized key set. -/
theorem extractChainStep {pre : IRResource → Except String Unit}
    {mkInfo : IRResource → Except String ShaderBindingInfo}
    {bs bs' : ModuleBindings} {K : List (Nat × Nat)}
    (hchar : ∀ k, k.1 < kMaxBindGroups → (hasKeyB bs k = true ↔ k ∈ K))
    (hK : ∀ k ∈ K, k.1 < kMaxBindGroups)
    (hnd : K.Nodup)
    {rs : List IRResource}
    (h : extractResourcesBinding pre mkInfo bs rs = .ok bs') :
    (K ++ rs.map resourceKey).Nodup ∧
    (∀ k, k.1 < kMaxBindGroups →
      (hasKeyB bs' k = true ↔ k ∈ K ++ rs.map resourceKey)) ∧
    (∀ k ∈ K ++ rs.map resourceKey, k.1 < kMaxBindGroups) := by
  obtain ⟨hnd2, hdisj, hchar2, hsets⟩ := extractResourcesBinding_ok rs bs bs' h
  have hrklt : ∀ k ∈ rs.map resourceKey, k.1 < kMaxBindGroups := by
    intro k hk
    obtain ⟨rr, hrr, hrk⟩ := List.mem_map.mp hk
    rw [← hrk]
    exact hsets rr hrr
  refine ⟨?_, ?_, ?_⟩
  · refine hnd.append hnd2 ?_
    intro a haK harp
    have h1 := hdisj a harp
    have h2 := (hchar a (hK a haK)).mpr haK
    rw [h1] at h2
    exact absurd h2 (by simp)
  · intro k hk
    rw [hchar2 k hk]
    constructor
    · rintro (h1 | h1)
      · exact List.mem_append.mpr (Or.inr h1)
      · exact List.mem_append.mpr (Or.inl ((hchar k hk).mp h1))
    · intro h1
      rcases List.mem_append.mp h1 with h2 | h2
      · exact Or.inr ((hchar k hk).mpr h2)
      · exact Or.inl h2
  · intro k hk
    rcases List.mem_append.mp hk with h2 | h2
    · exact hK k h2
    · exact hrklt k h2

/-- Helper for C6: the empty binding map is characterized by the empty
key list. -/
theorem hasKeyB_empty_char :
    ∀ k : Nat × Nat, k.1 < kMaxBindGroups →
      (hasKeyB {} k = true ↔ k ∈ ([] : List (Nat × Nat))) := by
  intro k _
  simp [hasKeyB_empty]

/-- Helper for C6: successful spirv-cross reflection implies all declared
BindingKeys are distinct. -/
theorem cross_ok_nodup (caps : Caps) (ir : ShaderIRView) (m : EntryPointMetadata)
    (h : ExtractSpirvInfoWithSpirvCross caps ir = .ok m) :
    (allBindingKeys ir).Nodup := by
  unfold ExtractSpirvInfoWithSpirvCross at h
  by_cases hp : 0 < ir.pushConstantCount
  · rw [if_pos hp] at h; exact absurd h (by simp)
  · rw [if_neg hp] at h
    by_cases hcis : 0 < ir.combinedImageSamplerCount
    · rw [if_pos hcis] at h; exact absurd h (by simp)
    · rw [if_neg hcis] at h
      cases h1 : extractResourcesBinding crossDecorationCheck
          (crossBindingInfo caps .UniformBuffer) {} ir.uniformBuffers with
      | error e => simp only [h1] at h; exact absurd h (by simp)
      | ok bs1 =>
        simp only [h1] at h
        cases h2 : extractResourcesBinding crossDecorationCheck
            (crossBindingInfo caps .SampledTexture) bs1 ir.separateImages with
        | error e => simp only [h2] at h; exact absurd h (by simp)
        | ok bs2 =>
          simp only [h2] at h
          cases h3 : extractResourcesBinding crossDecorationCheck
              (crossBindingInfo caps .Sampler) bs2 ir.separateSamplers with
          | error e => simp only [h3] at h; exact absurd h (by simp)
          | ok bs3 =>
            simp only [h3] at h
            cases h4 : extractResourcesBinding crossDecorationCheck
                (crossBindingInfo caps .StorageBuffer) bs3 ir.storageBuffers with
            | error e => simp only [h4] at h; exact absurd h (by simp)
            | ok bs4 =>
              simp only [h4] at h
              cases h5 : extractResourcesBinding crossDecorationCheck
                  (crossBindingInfo caps .StorageTexture) bs4 ir.storageImages with
              | error e => simp only [h5] at h; exact absurd h (by simp)
              | ok bs5 =>
                obtain ⟨n1, c1, l1⟩ := extractChainStep hasKeyB_empty_char
                  (by simp) List.nodup_nil h1
                obtain ⟨n2, c2, l2⟩ := extractChainStep c1 l1 n1 h2
                obtain ⟨n3, c3, l3⟩ := extractChainStep c2 l2 n2 h3
                obtain ⟨n4, c4, l4⟩ := extractChainStep c3 l3 n3 h4
                obtain ⟨n5, _, _⟩ := extractChainStep c4 l4 n4 h5
                simpa [allBindingKeys, allResources, List.map_append,
                  List.append_assoc] using n5

/-- Helper for C6: successful spvc reflection implies all declared
BindingKeys are distinct. -/
theorem spvc_ok_nodup (caps : Caps) (ir : ShaderIRView) (m : EntryPointMetadata)
    (h : ExtractSpirvInfoWithSpvc caps ir = .ok m) :
    (allBindingKeys ir).Nodup := by
  unfold ExtractSpirvInfoWithSpvc at h
  by_cases hp : 0 < ir.pushConstantCount
  · rw [if_pos hp] at h; exact absurd h (by simp)
  · rw [if_neg hp] at h
    cases h1 : extractResourcesBinding (fun _ => .ok ())
        (spvcBindingInfo caps .UniformBuffers) {} ir.uniformBuffers with
    | error e => simp only [h1] at h; exact absurd h (by simp)
    | ok bs1 =>
      simp only [h1] at h
      cases h2 : extractResourcesBinding (fun _ => .ok ())
          (spvcBindingInfo caps .SeparateImages) bs1 ir.separateImages with
      | error e => simp only [h2] at h; exact absurd h (by simp)
      | ok bs2 =>
        simp only [h2] at h
        cases h3 : extractResourcesBinding (fun _ => .ok ())
            (spvcBindingInfo caps .SeparateSamplers) bs2 ir.separateSamplers with
        | error e => simp only [h3] at h; exact absurd h (by simp)
        | ok bs3 =>
          simp only [h3] at h
          cases h4 : extractResourcesBinding (fun _ => .ok ())
              (spvcBindingInfo caps .StorageBuffers) bs3 ir.storageBuffers with
          | error e => simp only [h4] at h; exact absurd h (by simp)
          | ok bs4 =>
            simp only [h4] at h
            cases h5 : extractResourcesBinding (fun _ => .ok ())
                (spvcBindingInfo caps .StorageImages) bs4 ir.storageImages with
            | error e => simp only [h5] at h; exact absurd h (by simp)
            | ok bs5 =>
              obtain ⟨n1, c1, l1⟩ := extractChainStep hasKeyB_empty_char
                (by simp) List.nodup_nil h1
              obtain ⟨n2, c2, l2⟩ := extractChainStep c1 l1 n1 h2
              obtain ⟨n3, c3, l3⟩ := extractChainStep c2 l2 n2 h3
              obtain ⟨n4, c4, l4⟩ := extractChainStep c3 l3 n3 h4
              obtain ⟨n5, _, _⟩ := extractChainStep c4 l4 n4 h5
              simpa [allBindingKeys, allResources, List.map_append,
                List.append_assoc] using n5

/-- Claim C6: a module declaring the same (bind-group, binding-number)
key more than once fails reflection with a validation error under either
backend, so no metadata is produced. -/
theorem duplicate_binding_rejected (caps : Caps) (ir : ShaderIRView)
    (hdup : ¬ (allBindingKeys ir).Nodup) :
    exOk (ExtractSpirvInfoWithSpirvCross caps ir) = false ∧
    exOk (ExtractSpirvInfoWithSpvc caps ir) = false := by
  constructor
  · cases h : ExtractSpirvInfoWithSpirvCross caps ir with
    | error e => rfl
    | ok m => exact absurd (cross_ok_nodup caps ir m h) hdup
  · cases h : ExtractSpirvInfoWithSpvc caps ir with
    | error e => rfl
    | ok m => exact absurd (spvc_ok_nodup caps ir m h) hdup

/-- Witness for C6: the module declaring (0,1) twice fails under both
backends. -/
theorem duplicate_binding_rejected_witness :
    (¬ (allBindingKeys dupKeyModule).Nodup) ∧
    exOk (ExtractSpirvInfoWithSpirvCross (fun _ => true) dupKeyModule) = false ∧
    exOk (ExtractSpirvInfoWithSpvc (fun _ => true) dupKeyModule) = false :=
  ⟨by decide,
   (duplicate_binding_rejected (fun _ => true) dupKeyModule (by decide)).1,
   (duplicate_binding_rejected (fun _ => true) dupKeyModule (by decide)).2⟩

/-- Helper for C1: the two backends compute the same ShaderBindingInfo for
a resource of each class (for samplers, when the shader does not use it as
a comparison sampler). -/
theorem bindingInfo_parity (caps : Caps) (cls : ResourceClass) (r : IRResource)
    (hs : cls = .SeparateSamplers → r.isComparison = false) :
    spvcBindingInfo caps cls r = crossBindingInfo caps (classHint cls) r := by
  cases cls with
  | UniformBuffers =>
    simp [spvcBindingInfo, crossBindingInfo, spvcReportedType, classHint,
      isBufferBindingType]
  | SeparateImages =>
    simp [spvcBindingInfo, crossBindingInfo, spvcReportedType, classHint,
      isBufferBindingType]
  | SeparateSamplers =>
    have hc := hs rfl
    simp [spvcBindingInfo, crossBindingInfo, spvcReportedType, classHint,
      isBufferBindingType, hc]
  | StorageBuffers =>
    cases hw : r.nonWritable <;>
      simp [spvcBindingInfo, crossBindingInfo, spvcReportedType, classHint,
        isBufferBindingType, hw]
  | StorageImages =>
    cases hr : r.nonReadable <;> cases hw : r.nonWritable <;>
      simp [spvcBindingInfo, crossBindingInfo, spvcReportedType, classHint,
        isBufferBindingType, hr, hw]

/-- Helper for C1: single-resource extraction coincides for a decorated
resource. -/
theorem extractOne_parity (caps : Caps) (cls : ResourceClass) (r : IRResource)
    (bs : ModuleBindings) (hb : r.hasBinding = true) (hst : r.hasSet = true)
    (hs : cls = .SeparateSamplers → r.isComparison = false) :
    extractOneResource (fun _ => .ok ()) (spvcBindingInfo caps cls) bs r =
      extractOneResource crossDecorationCheck
        (crossBindingInfo caps (classHint cls)) bs r := by
  unfold extractOneResource crossDecorationCheck
  rw [bindingInfo_parity caps cls r hs]
  simp [hb, hst]

/-- Helper for C1: whole-class extraction coincides for decorated
resources. -/
theorem extractClass_parity (caps : Caps) (cls : ResourceClass) :
    ∀ (rs : List IRResource),
      (∀ r ∈ rs, r.hasBinding = true ∧ r.hasSet = true) →
      (cls = .SeparateSamplers → ∀ r ∈ rs, r.isComparison = false) →
      ∀ bs : ModuleBindings,
        extractResourcesBinding (fun _ => .ok ()) (spvcBindingInfo caps cls) bs rs =
          extractResourcesBinding crossDecorationCheck
            (crossBindingInfo caps (classHint cls)) bs rs := by
  intro rs
  induction rs with
  | nil => intro _ _ bs; rfl
  | cons r rest ih =>
    intro hdec hcs bs
    have hr := hdec r (List.mem_cons_self r rest)
    have hrest : ∀ w ∈ rest, w.hasBinding = true ∧ w.hasSet = true :=
      fun w hw => hdec w (List.mem_cons_of_mem r hw)
    have hcs' : cls = .SeparateSamplers → ∀ w ∈ rest, w.isComparison = false :=
      fun hc w hw => hcs hc w (List.mem_cons_of_mem r hw)
    simp only [extractResourcesBinding]
    rw [extractOne_parity caps cls r bs hr.1 hr.2
      (fun hc => hcs hc r (List.mem_cons_self r rest))]
    cases hone : extractOneResource crossDecorationCheck
        (crossBindingInfo caps (classHint cls)) bs r with
    | error e => rfl
    | ok bs1 => exact ih hrest hcs' bs1
/-- Helper for C1: with every vertex input located, the spvc input loop
equals the spirv-cross one. -/
theorem vertexInputs_parity :
    ∀ (inputs : List StageVar) (va : Nat),
      (∀ v ∈ inputs, v.hasLocation = true) →
      spvcInputStageLocations .Vertex inputs va = crossVertexInputs inputs va := by
  intro inputs
  induction inputs with
  | nil => intro va _; rfl
  | cons v rest ih =>
    intro va hloc
    have hv := hloc v (List.mem_cons_self v rest)
    have hrest : ∀ w ∈ rest, w.hasLocation = true :=
      fun w hw => hloc w (List.mem_cons_of_mem v hw)
    by_cases hl : kMaxVertexAttributes ≤ v.location
    · simp [spvcInputStageLocations, crossVertexInputs, hv, hl]
    · simp [spvcInputStageLocations, crossVertexInputs, hv, hl, ih _ hrest]

/-- Helper for C1: the vertex-output location requirement is identical in
both backends. -/
theorem vertexOutputs_parity :
    ∀ outs : List StageVar,
      spvcOutputStageLocations .Vertex outs =
        requireLocations "Need location qualifier on vertex output" outs := by
  intro outs
  induction outs with
  | nil => rfl
  | cons v rest ih =>
    by_cases hl : v.hasLocation <;>
      simp [spvcOutputStageLocations, requireLocations, hl, ih]

/-- Helper for C1: the fragment-input location requirement is identical in
both backends (the spvc loop leaves the attribute mask unchanged). -/
theorem fragmentInputs_parity :
    ∀ (inputs : List StageVar) (va : Nat),
      spvcInputStageLocations .Fragment inputs va =
        (match requireLocations "Need location qualifier on fragment input" inputs with
         | .error e => .error e
         | .ok _ => .ok va) := by
  intro inputs
  induction inputs with
  | nil => intro va; rfl
  | cons v rest ih =>
    intro va
    by_cases hl : v.hasLocation <;>
      simp [spvcInputStageLocations, requireLocations, hl, ih]
/-- Helper for C1: success characterization of the spirv-cross
fragment-output loop on located outputs. -/
theorem crossFragmentOutputs_toOption :
    ∀ (outs : List StageVar) (fo : List FormatType),
      (∀ o ∈ outs, o.hasLocation = true) →
      (crossFragmentOutputs outs fo).toOption =
        if (∀ o ∈ outs, o.location < kMaxColorAttachments ∧
            SpirvCrossBaseTypeToFormatType o.baseType ≠ FormatType.Other) then
          some (applyFragmentOutputs outs fo)
        else none := by
  intro outs
  induction outs with
  | nil => intro fo _; simp [crossFragmentOutputs, applyFragmentOutputs, Except.toOption]
  | cons v rest ih =>
    intro fo hloc
    have hv := hloc v (List.mem_cons_self v rest)
    have hrest : ∀ w ∈ rest, w.hasLocation = true :=
      fun w hw => hloc w (List.mem_cons_of_mem v hw)
    by_cases h1 : kMaxColorAttachments ≤ v.location
    · have hback : ¬ (∀ o ∈ v :: rest, o.location < kMaxColorAttachments ∧
          SpirvCrossBaseTypeToFormatType o.baseType ≠ FormatType.Other) := by
        intro hall
        exact absurd (hall v (List.mem_cons_self v rest)).1 (by omega)
      rw [if_neg hback]
      simp [crossFragmentOutputs, hv, h1, Except.toOption]
    · by_cases h2 : SpirvCrossBaseTypeToFormatType v.baseType = FormatType.Other
      · have hback : ¬ (∀ o ∈ v :: rest, o.location < kMaxColorAttachments ∧
            SpirvCrossBaseTypeToFormatType o.baseType ≠ FormatType.Other) := by
          intro hall
          exact (hall v (List.mem_cons_self v rest)).2 h2
        rw [if_neg hback]
        simp [crossFragmentOutputs, hv, h1, h2, Except.toOption]
      · have hstep : crossFragmentOutputs (v :: rest) fo =
            crossFragmentOutputs rest
              (fo.set v.location (SpirvCrossBaseTypeToFormatType v.baseType)) := by
          simp [crossFragmentOutputs, hv, h1, h2]
        rw [hstep, ih _ hrest]
        by_cases hrg : ∀ o ∈ rest, o.location < kMaxColorAttachments ∧
            SpirvCrossBaseTypeToFormatType o.baseType ≠ FormatType.Other
        · rw [if_pos hrg, if_pos (List.forall_mem_cons.mpr ⟨⟨by omega, h2⟩, hrg⟩)]
          simp [applyFragmentOutputs]
        · rw [if_neg hrg, if_neg
            (fun hall => hrg (fun w hw => hall w (List.mem_cons_of_mem v hw)))]
/-- Helper for C1: the spvc fragment-output limit pass succeeds when all
locations are in range. -/
theorem spvcOutputLocations_ok :
    ∀ outs : List StageVar,
      (∀ o ∈ outs, o.location < kMaxColorAttachments) →
      spvcOutputStageLocations .Fragment outs = .ok () := by
  intro outs
  induction outs with
  | nil => intro _; rfl
  | cons v rest ih =>
    intro h
    have hv := h v (List.mem_cons_self v rest)
    simp [spvcOutputStageLocations, Nat.not_le.mpr hv,
      ih (fun w hw => h w (List.mem_cons_of_mem v hw))]

/-- Helper for C1: the spvc fragment-output limit pass fails when some
location is out of range. -/
theorem spvcOutputLocations_err :
    ∀ outs : List StageVar,
      (¬ ∀ o ∈ outs, o.location < kMaxColorAttachments) →
      exOk (spvcOutputStageLocations .Fragment outs) = false := by
  intro outs
  induction outs with
  | nil => intro h; exact absurd (by simp) h
  | cons v rest ih =>
    intro h
    by_cases hv : kMaxColorAttachments ≤ v.location
    · simp [spvcOutputStageLocations, hv, exOk]
    · have hrest : ¬ ∀ o ∈ rest, o.location < kMaxColorAttachments := by
        intro hr
        exact h (List.forall_mem_cons.mpr ⟨by omega, hr⟩)
      simpa [spvcOutputStageLocations, hv] using ih hrest

/-- Helper for C1: success characterization of the spvc output-type
pass. -/
theorem spvcOutputStageTypes_toOption :
    ∀ (outs : List StageVar) (fo : List FormatType),
      (spvcOutputStageTypes outs fo).toOption =
        if (∀ o ∈ outs, SpirvCrossBaseTypeToFormatType o.baseType ≠ FormatType.Other) then
          some (applyFragmentOutputs outs fo)
        else none := by
  intro outs
  induction outs with
  | nil => intro fo; simp [spvcOutputStageTypes, applyFragmentOutputs, Except.toOption]
  | cons v rest ih =>
    intro fo
    by_cases h2 : SpirvCrossBaseTypeToFormatType v.baseType = FormatType.Other
    · have hback : ¬ ∀ o ∈ v :: rest,
          SpirvCrossBaseTypeToFormatType o.baseType ≠ FormatType.Other := by
        intro hall
        exact hall v (List.mem_cons_self v rest) h2
      rw [if_neg hback]
      simp [spvcOutputStageTypes, h2, Except.toOption]
    · have hstep : spvcOutputStageTypes (v :: rest) fo =
          spvcOutputStageTypes rest
            (fo.set v.location (SpirvCrossBaseTypeToFormatType v.baseType)) := by
        simp [spvcOutputStageTypes, h2]
      rw [hstep, ih]
      by_cases hrg : ∀ o ∈ rest,
          SpirvCrossBaseTypeToFormatType o.baseType ≠ FormatType.Other
      · have hcons : ∀ o ∈ v :: rest,
            SpirvCrossBaseTypeToFormatType o.baseType ≠ FormatType.Other := by
          intro o ho
          rcases List.mem_cons.mp ho with he | hr
          · rw [he]; exact h2
          · exact hrg o hr
        rw [if_pos hrg, if_pos hcons]
        simp [applyFragmentOutputs]
      · rw [if_neg hrg, if_neg
          (fun hall => hrg (fun w hw => hall w (List.mem_cons_of_mem v hw)))]

/-- Helper for C1: the two spvc fragment-output passes compose to the
same success condition and writes as the spirv-cross single pass. -/
theorem spvcFragmentComposite_toOption (outs : List StageVar) (fo : List FormatType) :
    (match spvcOutputStageLocations .Fragment outs with
     | .error e => (.error e : Except String (List FormatType))
     | .ok _ => spvcOutputStageTypes outs fo).toOption =
      if (∀ o ∈ outs, o.location < kMaxColorAttachments ∧
          SpirvCrossBaseTypeToFormatType o.baseType ≠ FormatType.Other) then
        some (applyFragmentOutputs outs fo)
      else none := by
  by_cases hloc : ∀ o ∈ outs, o.location < kMaxColorAttachments
  · rw [spvcOutputLocations_ok outs hloc]
    rw [spvcOutputStageTypes_toOption outs fo]
    by_cases htype : ∀ o ∈ outs, SpirvCrossBaseTypeToFormatType o.baseType ≠ FormatType.Other
    · rw [if_pos htype, if_pos (fun o ho => ⟨hloc o ho, htype o ho⟩)]
    · rw [if_neg htype, if_neg (fun hall => htype (fun o ho => (hall o ho).2))]
  · have herr := spvcOutputLocations_err outs hloc
    cases hE : spvcOutputStageLocations .Fragment outs with
    | error e =>
      rw [if_neg (fun hall => hloc (fun o ho => (hall o ho).1))]
      simp [Except.toOption]
    | ok u => rw [hE] at herr; exact absurd herr (by simp [exOk])
/-- Helper for C1: the spvc input loop ignores compute-stage inputs. -/
theorem spvcInputs_compute :
    ∀ (inputs : List StageVar) (va : Nat),
      spvcInputStageLocations .Compute inputs va = .ok va := by
  intro inputs
  induction inputs with
  | nil => intro va; rfl
  | cons v rest ih => intro va; simp [spvcInputStageLocations, ih]

/-- Helper for C1: the spvc output loop ignores compute-stage outputs. -/
theorem spvcOutputs_compute :
    ∀ outs : List StageVar, spvcOutputStageLocations .Compute outs = .ok () := by
  intro outs
  induction outs with
  | nil => rfl
  | cons v rest ih => simp [spvcOutputStageLocations, ih]

/-- Helper for C1: Except.toOption through an ok-mapping match. -/
theorem toOption_map_ok {α β : Type} (X : Except String α) (f : α → β) :
    (match X with
     | .error e => (.error e : Except String β)
     | .ok a => .ok (f a)).toOption = X.toOption.map f := by
  cases X <;> rfl
/-- Helper for C1: the spvc fragment stage wrapped into metadata, as an
option. -/
theorem spvcFragStage_toOption (bs : ModuleBindings) (outs : List StageVar) :
    (match spvcOutputStageLocations .Fragment outs with
     | .error e => (.error e : Except String EntryPointMetadata)
     | .ok _ =>
       match spvcOutputStageTypes outs initialFragmentOutputs with
       | .error e => .error e
       | .ok fo => .ok { stage := .Fragment, bindings := bs,
                         usedVertexAttributes := 0,
                         fragmentOutputFormatBaseTypes := fo }).toOption =
    (if (∀ o ∈ outs, o.location < kMaxColorAttachments ∧
        SpirvCrossBaseTypeToFormatType o.baseType ≠ FormatType.Other) then
      some { stage := .Fragment, bindings := bs, usedVertexAttributes := 0,
             fragmentOutputFormatBaseTypes :=
               applyFragmentOutputs outs initialFragmentOutputs }
    else none) := by
  have hcomp := spvcFragmentComposite_toOption outs initialFragmentOutputs
  cases hOL : spvcOutputStageLocations .Fragment outs with
  | error e =>
    simp only [hOL, Except.toOption] at hcomp ⊢
    by_cases hgood : ∀ o ∈ outs, o.location < kMaxColorAttachments ∧
        SpirvCrossBaseTypeToFormatType o.baseType ≠ FormatType.Other
    · rw [if_pos hgood] at hcomp; exact absurd hcomp (by simp)
    · rw [if_neg hgood]
  | ok u =>
    cases u
    simp only [hOL] at hcomp
    cases hT : spvcOutputStageTypes outs initialFragmentOutputs with
    | error e2 =>
      simp only [hT, Except.toOption] at hcomp ⊢
      by_cases hgood : ∀ o ∈ outs, o.location < kMaxColorAttachments ∧
          SpirvCrossBaseTypeToFormatType o.baseType ≠ FormatType.Other
      · rw [if_pos hgood] at hcomp; exact absurd hcomp (by simp)
      · rw [if_neg hgood]
    | ok fo =>
      simp only [hT, Except.toOption] at hcomp ⊢
      by_cases hgood : ∀ o ∈ outs, o.location < kMaxColorAttachments ∧
          SpirvCrossBaseTypeToFormatType o.baseType ≠ FormatType.Other
      · rw [if_pos hgood] at hcomp
        rw [if_pos hgood, Option.some.inj hcomp]
      · rw [if_neg hgood] at hcomp; exact absurd hcomp (by simp)

/-- Helper for C1: the spirv-cross fragment stage wrapped into metadata,
as an option. -/
theorem crossFragStage_toOption (bs : ModuleBindings) (outs : List StageVar)
    (hout : ∀ o ∈ outs, o.hasLocation = true) :
    (match crossFragmentOutputs outs initialFragmentOutputs with
     | .error e => (.error e : Except String EntryPointMetadata)
     | .ok fo => .ok { stage := .Fragment, bindings := bs,
                       usedVertexAttributes := 0,
                       fragmentOutputFormatBaseTypes := fo }).toOption =
    (if (∀ o ∈ outs, o.location < kMaxColorAttachments ∧
        SpirvCrossBaseTypeToFormatType o.baseType ≠ FormatType.Other) then
      some { stage := .Fragment, bindings := bs, usedVertexAttributes := 0,
             fragmentOutputFormatBaseTypes :=
               applyFragmentOutputs outs initialFragmentOutputs }
    else none) := by
  have hchar := crossFragmentOutputs_toOption outs initialFragmentOutputs hout
  cases hF : crossFragmentOutputs outs initialFragmentOutputs with
  | error e =>
    simp only [hF, Except.toOption] at hchar ⊢
    by_cases hgood : ∀ o ∈ outs, o.location < kMaxColorAttachments ∧
        SpirvCrossBaseTypeToFormatType o.baseType ≠ FormatType.Other
    · rw [if_pos hgood] at hchar; exact absurd hchar (by simp)
    · rw [if_neg hgood]
  | ok fo =>
    simp only [hF, Except.toOption] at hchar ⊢
    by_cases hgood : ∀ o ∈ outs, o.location < kMaxColorAttachments ∧
        SpirvCrossBaseTypeToFormatType o.baseType ≠ FormatType.Other
    · rw [if_pos hgood] at hchar
      rw [if_pos hgood, Option.some.inj hchar]
    · rw [if_neg hgood] at hchar; exact absurd hchar (by simp)
/-- Claim C1 (amended): the spvc and spirv-cross reflection backends are
each deterministic (they are pure functions of the IR view), and they
produce identical results — same success/failure and, on success, the same
EntryPointMetadata — on every module with no combined image+sampler
bindings, binding and descriptor-set decorations on every resource, no
comparison samplers, every vertex stage input located, and every fragment
stage output located.  (The original claim asserted parity on all valid
IR; the backends disagree outside these conditions — see the
counterexample.) -/
theorem backend_parity (caps : Caps) (ir : ShaderIRView)
    (h : BackendAgreementConditions ir) :
    (ExtractSpirvInfoWithSpvc caps ir).toOption =
      (ExtractSpirvInfoWithSpirvCross caps ir).toOption := by
  obtain ⟨hnc, hdec, hncs, hvil, hfol⟩ := h
  have hdec1 : ∀ r ∈ ir.uniformBuffers, r.hasBinding = true ∧ r.hasSet = true :=
    fun r hr => hdec r (by simp [allResources, hr])
  have hdec2 : ∀ r ∈ ir.separateImages, r.hasBinding = true ∧ r.hasSet = true :=
    fun r hr => hdec r (by simp [allResources, hr])
  have hdec3 : ∀ r ∈ ir.separateSamplers, r.hasBinding = true ∧ r.hasSet = true :=
    fun r hr => hdec r (by simp [allResources, hr])
  have hdec4 : ∀ r ∈ ir.storageBuffers, r.hasBinding = true ∧ r.hasSet = true :=
    fun r hr => hdec r (by simp [allResources, hr])
  have hdec5 : ∀ r ∈ ir.storageImages, r.hasBinding = true ∧ r.hasSet = true :=
    fun r hr => hdec r (by simp [allResources, hr])
  have e1 := extractClass_parity caps .UniformBuffers ir.uniformBuffers hdec1
    (fun hcon => by cases hcon)
  have e2 := extractClass_parity caps .SeparateImages ir.separateImages hdec2
    (fun hcon => by cases hcon)
  have e3 := extractClass_parity caps .SeparateSamplers ir.separateSamplers hdec3
    (fun _ => hncs)
  have e4 := extractClass_parity caps .StorageBuffers ir.storageBuffers hdec4
    (fun hcon => by cases hcon)
  have e5 := extractClass_parity caps .StorageImages ir.storageImages hdec5
    (fun hcon => by cases hcon)
  simp only [classHint] at e1 e2 e3 e4 e5
  unfold ExtractSpirvInfoWithSpvc ExtractSpirvInfoWithSpirvCross
  by_cases hp : 0 < ir.pushConstantCount
  · rw [if_pos hp, if_pos hp]
  · rw [if_neg hp, if_neg hp,
      if_neg (show ¬ 0 < ir.combinedImageSamplerCount by omega)]
    rw [e1]
    cases h1 : extractResourcesBinding crossDecorationCheck
        (crossBindingInfo caps .UniformBuffer) {} ir.uniformBuffers with
    | error e => simp only [h1, Except.toOption]
    | ok bs1 =>
      simp only [h1]
      rw [e2]
      cases h2 : extractResourcesBinding crossDecorationCheck
          (crossBindingInfo caps .SampledTexture) bs1 ir.separateImages with
      | error e => simp only [h2, Except.toOption]
      | ok bs2 =>
        simp only [h2]
        rw [e3]
        cases h3 : extractResourcesBinding crossDecorationCheck
            (crossBindingInfo caps .Sampler) bs2 ir.separateSamplers with
        | error e => simp only [h3, Except.toOption]
        | ok bs3 =>
          simp only [h3]
          rw [e4]
          cases h4 : extractResourcesBinding crossDecorationCheck
              (crossBindingInfo caps .StorageBuffer) bs3 ir.storageBuffers with
          | error e => simp only [h4, Except.toOption]
          | ok bs4 =>
            simp only [h4]
            rw [e5]
            cases h5 : extractResourcesBinding crossDecorationCheck
                (crossBindingInfo caps .StorageTexture) bs4 ir.storageImages with
            | error e => simp only [h5, Except.toOption]
            | ok bs5 =>
              simp only [h5]
              cases hst : ir.stage with
              | Compute =>
                rw [spvcInputs_compute ir.stageInputs 0]
                rw [spvcOutputs_compute ir.stageOutputs]
              | Vertex =>
                rw [vertexInputs_parity ir.stageInputs 0 (hvil hst),
                  vertexOutputs_parity ir.stageOutputs]
              | Fragment =>
                rw [fragmentInputs_parity ir.stageInputs 0]
                cases hf1 : requireLocations
                    "Need location qualifier on fragment input" ir.stageInputs with
                | error e => simp only [hf1, Except.toOption]
                | ok u =>
                  cases u
                  simp only [hf1]
                  exact (spvcFragStage_toOption bs5 ir.stageOutputs).trans
                    (crossFragStage_toOption bs5 ir.stageOutputs (hfol hst)).symm
/-- Counterexample for C1 as stated: on a valid module declaring one
combined image+sampler binding, the spirv-cross backend fails ("Combined
images and samplers aren't supported.") while the spvc backend succeeds,
so the two backends do not produce identical metadata. -/
theorem backend_parity_counterexample :
    (ExtractSpirvInfoWithSpvc (fun _ => true) combinedSamplerModule).toOption ≠
      (ExtractSpirvInfoWithSpirvCross (fun _ => true) combinedSamplerModule).toOption := by
  decide

/-- Witness for C1 (amended) at a concrete well-decorated vertex
module. -/
theorem backend_parity_witness :
    (ExtractSpirvInfoWithSpvc (fun _ => true) parityWitnessModule).toOption =
      (ExtractSpirvInfoWithSpirvCross (fun _ => true) parityWitnessModule).toOption :=
  backend_parity (fun _ => true) parityWitnessModule (by constructor <;> decide)

end Dawn
